import Mathlib

/-!
Verification of the frame tiling and batch assembler (`tiling.rs`).

The definitions below are a shallow embedding of `src/webrender/src/tiling.rs`.
Pure functions become Lean functions; stateful methods take and return the
state explicitly; Rust panics (`panic!`, `unreachable!`, `debug_assert!`,
out-of-bounds indexing, `Option::unwrap`) become `Except String` errors.
Machine integers (`i32`, `isize`) are modelled as `Int`, `usize`/`u32` as
`Nat`; the claims under scrutiny do not involve integer overflow.
`f32` values that merely ride along in data (filter amounts, colors) are
modelled as exact rationals.

Types that come from sibling modules of the same repository that are not part
of the provided source (`render_task.rs`, `prim_store.rs`, `internal_types.rs`,
`renderer.rs`, the `euclid` crate) are modelled as plain data carriers: only
the structure observed by `tiling.rs` is kept, as documented on each one.
-/

/-! ## Geometry (modelled from the external euclid crate) -/

/-- Device-space integer point (`DeviceIntPoint`, euclid `TypedPoint2D<i32>`). -/
structure DeviceIntPoint where
  x : Int
  y : Int
deriving DecidableEq, Repr

/-- Device-space integer size (`DeviceIntSize`, euclid `TypedSize2D<i32>`). -/
structure DeviceIntSize where
  width : Int
  height : Int
deriving DecidableEq, Repr

/-- Device-space integer rectangle (`DeviceIntRect`). -/
structure DeviceIntRect where
  origin : DeviceIntPoint
  size : DeviceIntSize
deriving DecidableEq, Repr

/-- Device-space unsigned point (`DeviceUintPoint`). -/
structure DeviceUintPoint where
  x : Nat
  y : Nat
deriving DecidableEq, Repr

/-- Device-space unsigned size (`DeviceUintSize`). -/
structure DeviceUintSize where
  width : Nat
  height : Nat
deriving DecidableEq, Repr

/-- The all-zero rectangle (`DeviceIntRect::zero()`). -/
def DeviceIntRect.zero : DeviceIntRect := ⟨⟨0, 0⟩, ⟨0, 0⟩⟩

/-- Modelled from the euclid crate: `Rect::intersects` uses strict
inequalities on both axes. -/
def DeviceIntRect.intersects (a b : DeviceIntRect) : Bool :=
  a.origin.x < b.origin.x + b.size.width &&
  b.origin.x < a.origin.x + a.size.width &&
  a.origin.y < b.origin.y + b.size.height &&
  b.origin.y < a.origin.y + a.size.height

/-- Modelled from the euclid crate: `Rect::union` returns the other operand
when one of the two rectangles has a zero size, and the bounding box of the
two rectangles otherwise. -/
def DeviceIntRect.union (a b : DeviceIntRect) : DeviceIntRect :=
  if a.size = ⟨0, 0⟩ then b
  else if b.size = ⟨0, 0⟩ then a
  else
    let x0 := min a.origin.x b.origin.x
    let y0 := min a.origin.y b.origin.y
    let x1 := max (a.origin.x + a.size.width) (b.origin.x + b.size.width)
    let y1 := max (a.origin.y + a.size.height) (b.origin.y + b.size.height)
    ⟨⟨x0, y0⟩, ⟨x1 - x0, y1 - y0⟩⟩

/-! ## Shared helpers for partiality -/

/-- Rust `Vec` indexing: panics (here: errors) when out of bounds. -/
def indexE {α : Type} (l : List α) (i : Nat) : Except String α :=
  match l[i]? with
  | some a => Except.ok a
  | none => Except.error "index out of bounds"

/-- Rust `Option::unwrap`: panics (here: errors) on `None`. -/
def optionE {α : Type} (o : Option α) : Except String α :=
  match o with
  | some a => Except.ok a
  | none => Except.error "called unwrap on a None value"

/-! ## External data carriers

These types live in sibling modules of the repository that are not part of
the provided source; only what `tiling.rs` observes is modelled. -/

/-- Modelled from `webrender_traits`: the handle type of an external image.
Only the three variants distinguished by `get_batch_kind` exist. -/
inductive ExternalImageType
  | Texture2DHandle
  | TextureRectHandle
  | ExternalBuffer
deriving DecidableEq, Repr

/-- Modelled from `internal_types.rs`: a texture referenced by a batch.
`Invalid` is the sentinel for an uninitialised slot; other variants carry
an identifying token. -/
inductive SourceTexture
  | Invalid
  | TextureCache (id : Nat)
  | WebGL (id : Nat)
  | External (id : Nat) (image_type : ExternalImageType)
deriving DecidableEq, Repr

/-- Modelled from `internal_types.rs`: the three color texture slots of a
batch (`BatchTextures { colors: [SourceTexture; 3] }`). -/
structure BatchTextures where
  color0 : SourceTexture
  color1 : SourceTexture
  color2 : SourceTexture
deriving DecidableEq, Repr

/-- `BatchTextures::no_texture()`: all slots invalid. -/
def BatchTextures.no_texture : BatchTextures := ⟨.Invalid, .Invalid, .Invalid⟩

/-- Modelled from `webrender_traits`: an RGBA color with `f32` channels,
here exact rationals. -/
structure ColorF where
  r : Rat
  g : Rat
  b : Rat
  a : Rat
deriving DecidableEq, Repr

/-- Modelled from `renderer.rs`: the blend mode attached to a batch key. -/
inductive BlendMode
  | None
  | Alpha
  | PremultipliedAlpha
  | Subpixel (color : ColorF)
deriving DecidableEq, Repr

/-- Modelled from `webrender_traits`: the font render mode of a text run. -/
inductive FontRenderMode
  | Mono
  | Alpha
  | Subpixel
deriving DecidableEq, Repr

/-- Modelled from `prim_store.rs`: the closed set of primitive kinds. -/
inductive PrimitiveKind
  | Rectangle
  | TextRun
  | Image
  | YuvImage
  | Border
  | AlignedGradient
  | AngleGradient
  | RadialGradient
  | BoxShadow
deriving DecidableEq, Repr

/-- Modelled from `gpu_store.rs`: a `GpuStoreAddress(i32)` newtype. -/
structure GpuStoreAddress where
  addr : Int
deriving DecidableEq, Repr

/-- `RenderTaskIndex(usize)`: dense index into the task-data vector. -/
abbrev RenderTaskIndex := Nat

/-- `RenderPassIndex(isize)`. -/
abbrev RenderPassIndex := Int

/-- `RenderTargetIndex(usize)`. -/
abbrev RenderTargetIndex := Nat

/-- Special sentinel value recognized by the shader
(`OPAQUE_TASK_INDEX: RenderTaskIndex = RenderTaskIndex(i32::MAX as usize)`). -/
def OPAQUE_TASK_INDEX : RenderTaskIndex := 2147483647

/-- Modelled from `render_task.rs`: the structural key of a dynamic render
task, abstracted to an identifying token (`tiling.rs` only compares and
hashes keys). -/
structure RenderTaskKey where
  token : Nat
deriving DecidableEq, Repr

/-- Modelled from `render_task.rs`: a task id, either a stable static index
or a structural dynamic key. -/
inductive RenderTaskId
  | Static (index : RenderTaskIndex)
  | Dynamic (key : RenderTaskKey)
deriving DecidableEq, Repr

/-- Modelled from `render_task.rs`: a task location; a `Dynamic` origin is
`None` until the render-target allocation resolves it. -/
inductive RenderTaskLocation
  | Fixed
  | Dynamic (origin : Option (DeviceIntPoint × RenderTargetIndex)) (size : DeviceIntSize)
deriving DecidableEq, Repr

/-- Modelled from `render_task.rs`: the per-task GPU record
(`RenderTaskData`, twelve `f32` values); the payload is abstracted. -/
structure RenderTaskData where
  data : List Int
deriving DecidableEq, Repr

/-- `RenderTaskData::empty()`. -/
def RenderTaskData.empty : RenderTaskData := ⟨[]⟩

/-- Modelled from `internal_types.rs`: low-level filter operations; `Au`
fixed-point amounts are kept as raw `Int` payloads, angles as raw fixed-point
`Int`. -/
inductive LowLevelFilterOp
  | Blur (radius : Int)
  | Contrast (amount : Int)
  | Grayscale (amount : Int)
  | HueRotate (angle : Int)
  | Invert (amount : Int)
  | Saturate (amount : Int)
  | Sepia (amount : Int)
  | Brightness (amount : Int)
  | Opacity (amount : Int)
deriving DecidableEq, Repr

/-- Modelled from `internal_types.rs`:
`ANGLE_FLOAT_TO_FIXED`, the fixed-point scale of stored angles. -/
def ANGLE_FLOAT_TO_FIXED : Rat := 65536

/-- Modelled from `app_units`: `Au::to_f32_px` divides by 60 app units per
pixel (exact rational here). -/
def auToPx (a : Int) : Rat := (a : Rat) / 60

/-- Modelled from `webrender_traits`: `MixBlendMode`, kept as its `u32`
discriminant (the code only ever casts it with `as u32 as i32`). -/
abbrev MixBlendMode := Nat

/-- Modelled from `render_task.rs`: a hardware composite operation; only
`to_blend_mode` is observed by `tiling.rs`. -/
inductive HardwareCompositeOp
  | Alpha
deriving DecidableEq, Repr

/-- Modelled from `render_task.rs`: `HardwareCompositeOp::to_blend_mode`. -/
def HardwareCompositeOp.to_blend_mode : HardwareCompositeOp → BlendMode
  | .Alpha => BlendMode.Alpha

/-- Modelled from `util.rs`: the transform class of a rect. -/
inductive TransformedRectKind
  | AxisAligned
  | Complex
deriving DecidableEq, Repr

/-- Modelled from `util.rs`: a transformed rect; `tiling.rs` reads only its
`kind` in the batching paths under scrutiny. -/
structure TransformedRect where
  kind : TransformedRectKind
deriving DecidableEq, Repr

/-! ## Primitive store (relevant projection of `prim_store.rs`) -/

/-- Modelled from `prim_store.rs`: per-text-run CPU data observed by
`tiling.rs` (`blur_radius` is `Au(i32)`, kept as the raw `Int`). -/
structure TextRunCpu where
  blur_radius : Int
  render_mode : FontRenderMode
  color : ColorF
  color_texture_id : SourceTexture
  resource_address : Int
deriving DecidableEq, Repr

/-- Modelled from `prim_store.rs`: per-image CPU data observed by
`tiling.rs`. -/
structure ImageCpu where
  color_texture_id : SourceTexture
  resource_address : Int
deriving DecidableEq, Repr

/-- Modelled from `prim_store.rs`: per-YUV-image CPU data observed by
`tiling.rs`. -/
structure YuvImageCpu where
  yuv_texture_id : BatchTextures
  yuv_resource_address : Int
deriving DecidableEq, Repr

/-- Modelled from `prim_store.rs`: the primitive metadata fields that
`tiling.rs` reads. `clip_task`/`render_task` hold only the task id, the one
field `tiling.rs` observes of those tasks. -/
structure PrimitiveMetadata where
  prim_kind : PrimitiveKind
  cpu_prim_index : Nat
  gpu_prim_index : GpuStoreAddress
  clip_task : Option RenderTaskId
  render_task : Option RenderTaskId
  is_opaque : Bool
  gpu_data_address : GpuStoreAddress
  gpu_data_count : Int
deriving DecidableEq, Repr

/-- Modelled from `prim_store.rs`: the store slices read during batching. -/
structure PrimitiveStore where
  cpu_metadata : List PrimitiveMetadata
  cpu_text_runs : List TextRunCpu
  cpu_images : List ImageCpu
  cpu_yuv_images : List YuvImageCpu
  cpu_bounding_rects : List (Option DeviceIntRect)
deriving Repr

/-- Modelled from `prim_store.rs`: `PrimitiveStore::get_metadata` indexes the
metadata vector (panics when out of bounds). -/
def PrimitiveStore.get_metadata (s : PrimitiveStore) (prim_index : Nat) :
    Except String PrimitiveMetadata :=
  indexE s.cpu_metadata prim_index

/-! ## Batch keys (`tiling.rs`) -/

/-- `AlphaBatchKind`: the closed set of batch shaders (tiling.rs:1326). -/
inductive AlphaBatchKind
  | Composite
  | HardwareComposite
  | Blend
  | Rectangle
  | TextRun
  | Image
  | ImageRect
  | YuvImage
  | Border
  | AlignedGradient
  | AngleGradient
  | RadialGradient
  | BoxShadow
  | CacheImage
deriving DecidableEq, Repr

/-- `AlphaBatchKeyFlags` bitflags (tiling.rs:1343): `NEEDS_CLIPPING` and
`AXIS_ALIGNED`, modelled as two booleans. -/
structure AlphaBatchKeyFlags where
  needs_clipping : Bool
  axis_aligned : Bool
deriving DecidableEq, Repr

/-- `AlphaBatchKeyFlags::empty()`. -/
def AlphaBatchKeyFlags.empty : AlphaBatchKeyFlags := ⟨false, false⟩

/-- The `NEEDS_CLIPPING` flag constant. -/
def NEEDS_CLIPPING : AlphaBatchKeyFlags := ⟨true, false⟩

/-- The `AXIS_ALIGNED` flag constant. -/
def AXIS_ALIGNED : AlphaBatchKeyFlags := ⟨false, true⟩

/-- Bitwise union of flag sets (the `|` operator of the bitflags). -/
def AlphaBatchKeyFlags.orFlags (a b : AlphaBatchKeyFlags) : AlphaBatchKeyFlags :=
  ⟨a.needs_clipping || b.needs_clipping, a.axis_aligned || b.axis_aligned⟩

/-- `AlphaBatchKey` (tiling.rs:1364). -/
structure AlphaBatchKey where
  kind : AlphaBatchKind
  flags : AlphaBatchKeyFlags
  blend_mode : BlendMode
  textures : BatchTextures
deriving DecidableEq, Repr

/-- `AlphaBatchKey::new` (tiling.rs:1372). -/
def AlphaBatchKey.new (kind : AlphaBatchKind) (flags : AlphaBatchKeyFlags)
    (blend_mode : BlendMode) (textures : BatchTextures) : AlphaBatchKey :=
  ⟨kind, flags, blend_mode, textures⟩

/-- `textures_compatible` (tiling.rs:1403): two slots are compatible when
either is the invalid sentinel or they are equal. -/
def textures_compatible (t1 t2 : SourceTexture) : Bool :=
  t1 = SourceTexture.Invalid || t2 = SourceTexture.Invalid || t1 = t2

/-- `AlphaBatchKey::is_compatible_with` (tiling.rs:1385). -/
def AlphaBatchKey.is_compatible_with (self other : AlphaBatchKey) : Bool :=
  self.kind = other.kind &&
  self.flags = other.flags &&
  self.blend_mode = other.blend_mode &&
  textures_compatible self.textures.color0 other.textures.color0 &&
  textures_compatible self.textures.color1 other.textures.color1 &&
  textures_compatible self.textures.color2 other.textures.color2

/-! ## Packed instances (`tiling.rs`) -/

/-- `PrimitiveInstance` (tiling.rs:1427), fields in the declaration order of
the source struct. -/
structure PrimitiveInstance where
  global_prim_id : Int
  prim_address : GpuStoreAddress
  task_index : Int
  clip_task_index : Int
  layer_index : Int
  sub_index : Int
  z_sort_index : Int
  user_data : Int × Int
deriving DecidableEq, Repr

/-- The names of the nine 32-bit fields of `PrimitiveInstance` in the
declaration order of the source struct (tiling.rs:1427-1437). -/
def PrimitiveInstance.fieldOrder : List String :=
  ["global_prim_id", "prim_address", "task_index", "clip_task_index",
   "layer_index", "sub_index", "z_sort_index", "user_data[0]", "user_data[1]"]

/-- The field order asserted by the specification (spec section 6 wire-level
layout): eight fields with `z_sort_index` trailing after `user_data`. This
definition follows the spec's words, for comparison with
`PrimitiveInstance.fieldOrder`, which follows the source. -/
def specClaimedFieldOrder : List String :=
  ["global_prim_id", "prim_address", "task_index", "clip_task_index",
   "layer_index", "sub_index", "user_data[0]", "user_data[1]", "z_sort_index"]

/-- `CacheClipInstance` (tiling.rs:1420). -/
structure CacheClipInstance where
  task_id : Int
  layer_index : Int
  address : GpuStoreAddress
  segment : Int
deriving DecidableEq, Repr

/-! ## Blend-mode derivation and instance encoders (`tiling.rs`) -/

/-- `PrimitiveStore::get_blend_mode` (tiling.rs:137). The `cpu_text_runs`
lookup is only reached for text runs. -/
def PrimitiveStore.get_blend_mode (s : PrimitiveStore) (needs_blending : Bool)
    (metadata : PrimitiveMetadata) : Except String BlendMode :=
  match metadata.prim_kind with
  | PrimitiveKind.TextRun =>
    match indexE s.cpu_text_runs metadata.cpu_prim_index with
    | Except.error e => Except.error e
    | Except.ok text_run_cpu =>
      if text_run_cpu.blur_radius = 0 then
        match text_run_cpu.render_mode with
        | FontRenderMode.Subpixel => Except.ok (BlendMode.Subpixel text_run_cpu.color)
        | FontRenderMode.Alpha => Except.ok BlendMode.Alpha
        | FontRenderMode.Mono => Except.ok BlendMode.Alpha
      else
        Except.ok BlendMode.Alpha
  | PrimitiveKind.Image => Except.ok (if needs_blending then BlendMode.PremultipliedAlpha else BlendMode.None)
  | PrimitiveKind.AlignedGradient => Except.ok (if needs_blending then BlendMode.PremultipliedAlpha else BlendMode.None)
  | PrimitiveKind.AngleGradient => Except.ok (if needs_blending then BlendMode.PremultipliedAlpha else BlendMode.None)
  | PrimitiveKind.RadialGradient => Except.ok (if needs_blending then BlendMode.PremultipliedAlpha else BlendMode.None)
  | _ => Except.ok (if needs_blending then BlendMode.Alpha else BlendMode.None)

/-- The `needs_blending` computation of `AlphaBatcher::build`
(tiling.rs:599-601): complex transform, or non-opaque primitive, or a
present clip task. -/
def needsBlending (transform_kind : TransformedRectKind) (metadata : PrimitiveMetadata) : Bool :=
  transform_kind = TransformedRectKind.Complex ||
  !metadata.is_opaque ||
  metadata.clip_task.isSome

/-- `PrimitiveStore::get_batch_kind` (tiling.rs:70). -/
def PrimitiveStore.get_batch_kind (s : PrimitiveStore) (metadata : PrimitiveMetadata) :
    Except String AlphaBatchKind :=
  match metadata.prim_kind with
  | PrimitiveKind.Border => Except.ok AlphaBatchKind.Border
  | PrimitiveKind.BoxShadow => Except.ok AlphaBatchKind.BoxShadow
  | PrimitiveKind.Image =>
    match indexE s.cpu_images metadata.cpu_prim_index with
    | Except.error e => Except.error e
    | Except.ok image_cpu =>
      match image_cpu.color_texture_id with
      | SourceTexture.External _ ext_type =>
        match ext_type with
        | ExternalImageType.Texture2DHandle => Except.ok AlphaBatchKind.Image
        | ExternalImageType.TextureRectHandle => Except.ok AlphaBatchKind.ImageRect
        | _ => Except.error "Non-texture handle type should be handled in other way."
      | _ => Except.ok AlphaBatchKind.Image
  | PrimitiveKind.YuvImage => Except.ok AlphaBatchKind.YuvImage
  | PrimitiveKind.Rectangle => Except.ok AlphaBatchKind.Rectangle
  | PrimitiveKind.AlignedGradient => Except.ok AlphaBatchKind.AlignedGradient
  | PrimitiveKind.AngleGradient => Except.ok AlphaBatchKind.AngleGradient
  | PrimitiveKind.RadialGradient => Except.ok AlphaBatchKind.RadialGradient
  | PrimitiveKind.TextRun =>
    match indexE s.cpu_text_runs metadata.cpu_prim_index with
    | Except.error e => Except.error e
    | Except.ok text_run_cpu =>
      Except.ok (if text_run_cpu.blur_radius = 0 then AlphaBatchKind.TextRun else AlphaBatchKind.CacheImage)

/-- `PrimitiveStore::get_color_textures` (tiling.rs:113). -/
def PrimitiveStore.get_color_textures (s : PrimitiveStore) (metadata : PrimitiveMetadata) :
    Except String BatchTextures :=
  match metadata.prim_kind with
  | PrimitiveKind.Image =>
    match indexE s.cpu_images metadata.cpu_prim_index with
    | Except.error e => Except.error e
    | Except.ok image_cpu => Except.ok ⟨image_cpu.color_texture_id, .Invalid, .Invalid⟩
  | PrimitiveKind.YuvImage =>
    match indexE s.cpu_yuv_images metadata.cpu_prim_index with
    | Except.error e => Except.error e
    | Except.ok image_cpu => Except.ok image_cpu.yuv_texture_id
  | PrimitiveKind.TextRun =>
    match indexE s.cpu_text_runs metadata.cpu_prim_index with
    | Except.error e => Except.error e
    | Except.ok text_run_cpu => Except.ok ⟨text_run_cpu.color_texture_id, .Invalid, .Invalid⟩
  | _ => Except.ok ⟨.Invalid, .Invalid, .Invalid⟩

/-! ## Render task collection (`tiling.rs`) -/

/-- `DynamicTaskInfo` (tiling.rs:446). -/
structure DynamicTaskInfo where
  index : RenderTaskIndex
  rect : DeviceIntRect
deriving DecidableEq, Repr

/-- Modelled from `render_task.rs`: the kinds of render task, with payloads
trimmed to what `tiling.rs` dispatches on. -/
inductive RenderTaskKind
  | Alpha (isolate_clear : Bool)
  | CachePrimitive (prim : Nat)
  | CacheMask
  | VerticalBlur (radius : Int) (prim : Nat)
  | HorizontalBlur (radius : Int) (prim : Nat)
  | Readback (rect : DeviceIntRect)
deriving DecidableEq, Repr

/-- Modelled from `render_task.rs`: a render task. `write_task_data`
serialises the task to `f32` GPU data; that payload is abstracted into the
`task_data` field. -/
structure RenderTask where
  id : RenderTaskId
  location : RenderTaskLocation
  kind : RenderTaskKind
  task_data : RenderTaskData
deriving DecidableEq, Repr

/-- Modelled from `render_task.rs`: `RenderTask::write_task_data` (the `f32`
payload is carried opaquely by the task). -/
def RenderTask.write_task_data (t : RenderTask) : RenderTaskData := t.task_data

/-- `RenderTargetKind` (tiling.rs:933). -/
inductive RenderTargetKind
  | Color
  | Alpha
deriving DecidableEq, Repr

/-- Modelled from the spec: `RenderTask::target_kind` — `CacheMask` tasks
attach to alpha targets, every other kind to color targets (spec section 4.6:
AlphaRenderTarget accepts only CacheMask; ColorRenderTarget the rest). -/
def RenderTask.target_kind (t : RenderTask) : RenderTargetKind :=
  match t.kind with
  | RenderTaskKind.CacheMask => RenderTargetKind.Alpha
  | _ => RenderTargetKind.Color

/-- `RenderTaskCollection` (tiling.rs:451). The `HashMap` keyed by
`(RenderTaskKey, RenderPassIndex)` is modelled as an association list whose
lookup returns the first matching entry. -/
structure RenderTaskCollection where
  render_task_data : List RenderTaskData
  dynamic_tasks : List ((RenderTaskKey × RenderPassIndex) × DynamicTaskInfo)
deriving DecidableEq, Repr

/-- `RenderTaskCollection::new` (tiling.rs:457). -/
def RenderTaskCollection.new (static_render_task_count : Nat) : RenderTaskCollection :=
  ⟨List.replicate static_render_task_count RenderTaskData.empty, []⟩

/-- Lookup in the dynamic-task map. -/
def RenderTaskCollection.lookupDynamic (c : RenderTaskCollection)
    (k : RenderTaskKey × RenderPassIndex) : Option DynamicTaskInfo :=
  (c.dynamic_tasks.find? (fun e => decide (e.1 = k))).map (fun e => e.2)

/-- `RenderTaskCollection::add` (tiling.rs:464). A static id writes the task
data at its reserved slot (panicking when the slot does not exist). A
dynamic id appends a fresh record after the `debug_assert!` that the
`(key, pass)` pair is fresh; the allocated rect must come from a resolved
dynamic location, otherwise the two `panic!` arms fire. -/
def RenderTaskCollection.add (c : RenderTaskCollection) (task : RenderTask)
    (pass : RenderPassIndex) : Except String (RenderTaskCollection × RenderTaskIndex) :=
  match task.id with
  | RenderTaskId.Static index =>
    if index < c.render_task_data.length then
      Except.ok ({ c with render_task_data := c.render_task_data.set index task.write_task_data }, index)
    else
      Except.error "index out of bounds"
  | RenderTaskId.Dynamic key =>
    let index : RenderTaskIndex := c.render_task_data.length
    let fullKey := (key, pass)
    if (c.lookupDynamic fullKey).isSome then
      Except.error "debug assertion failed: dynamic task key inserted twice"
    else
      match task.location with
      | RenderTaskLocation.Fixed =>
        Except.error "Dynamic tasks should not have fixed locations!"
      | RenderTaskLocation.Dynamic none _ =>
        Except.error "Expect the task to be already allocated here"
      | RenderTaskLocation.Dynamic (some (origin, _)) size =>
        Except.ok
          ({ render_task_data := c.render_task_data ++ [task.write_task_data],
             dynamic_tasks := ((fullKey, ⟨index, ⟨origin, size⟩⟩)) :: c.dynamic_tasks }, index)

/-- `RenderTaskCollection::get_dynamic_allocation` (tiling.rs:488). -/
def RenderTaskCollection.get_dynamic_allocation (c : RenderTaskCollection)
    (pass_index : RenderPassIndex) (key : RenderTaskKey) : Option DeviceIntRect :=
  (c.lookupDynamic (key, pass_index)).map (fun task => task.rect)

/-- `RenderTaskCollection::get_static_task_index` (tiling.rs:494). -/
def RenderTaskCollection.get_static_task_index (_c : RenderTaskCollection)
    (id : RenderTaskId) : Except String RenderTaskIndex :=
  match id with
  | RenderTaskId.Static index => Except.ok index
  | RenderTaskId.Dynamic _ => Except.error "This is a bug - expected a static render task!"

/-- `RenderTaskCollection::get_task_index` (tiling.rs:501): a missing
dynamic key is a programming error (`HashMap` indexing panics). -/
def RenderTaskCollection.get_task_index (c : RenderTaskCollection)
    (id : RenderTaskId) (pass_index : RenderPassIndex) : Except String RenderTaskIndex :=
  match id with
  | RenderTaskId.Static index => Except.ok index
  | RenderTaskId.Dynamic key =>
    match c.lookupDynamic (key, pass_index) with
    | some info => Except.ok info.index
    | none => Except.error "no entry found for key"

/-! ## Primitive batches (`tiling.rs`) -/

/-- `PrimitiveBatchData` (tiling.rs:1440). -/
inductive PrimitiveBatchData
  | Instances (data : List PrimitiveInstance)
  | Composite (inst : PrimitiveInstance)
deriving DecidableEq, Repr

/-- `PrimitiveBatchItem` (tiling.rs:1446): records the primitive or stacking
context each row came from, for the overlap tests during batch merge. -/
inductive PrimitiveBatchItem
  | Primitive (prim_index : Nat)
  | StackingContext (stacking_context_index : Nat)
deriving DecidableEq, Repr

/-- `PrimitiveBatch` (tiling.rs:1452). -/
structure PrimitiveBatch where
  key : AlphaBatchKey
  data : PrimitiveBatchData
  items : List PrimitiveBatchItem
deriving DecidableEq, Repr

/-- The instance rows held by a batch (one row for a composite batch). -/
def PrimitiveBatch.instances (b : PrimitiveBatch) : List PrimitiveInstance :=
  match b.data with
  | PrimitiveBatchData.Instances data => data
  | PrimitiveBatchData.Composite inst => [inst]

/-- `PrimitiveBatch::new_instances` (tiling.rs:1459): every kind but
`Composite` starts with an empty instance vector; `Composite` is
unreachable. -/
def PrimitiveBatch.new_instances (batch_kind : AlphaBatchKind) (key : AlphaBatchKey) :
    Except String PrimitiveBatch :=
  match batch_kind with
  | AlphaBatchKind.Composite => Except.error "internal error: entered unreachable code"
  | _ => Except.ok { key := key, data := PrimitiveBatchData.Instances [], items := [] }

/-- `PrimitiveBatch::new_composite` (tiling.rs:1486). -/
def PrimitiveBatch.new_composite (stacking_context_index : Nat)
    (task_index backdrop_task src_task_index : RenderTaskIndex)
    (mode : MixBlendMode) (z_sort_index : Int) : PrimitiveBatch :=
  { key := AlphaBatchKey.new AlphaBatchKind.Composite AlphaBatchKeyFlags.empty
      BlendMode.Alpha BatchTextures.no_texture,
    data := PrimitiveBatchData.Composite
      { global_prim_id := -1,
        prim_address := ⟨0⟩,
        task_index := (task_index : Int),
        clip_task_index := -1,
        layer_index := -1,
        sub_index := (mode : Int),
        z_sort_index := z_sort_index,
        user_data := ((backdrop_task : Int), (src_task_index : Int)) },
    items := [PrimitiveBatchItem.StackingContext stacking_context_index] }

/-- The filter dispatch of `add_blend_to_batch` (tiling.rs:178-190): the
filter mode code and the fixed-point amount `round(amount * 65535)`. -/
def filterModeAndAmount (filter : LowLevelFilterOp) : Int × Int :=
  let pair : Int × Rat :=
    match filter with
    | LowLevelFilterOp.Blur _ => (0, 0)
    | LowLevelFilterOp.Contrast amount => (1, auToPx amount)
    | LowLevelFilterOp.Grayscale amount => (2, auToPx amount)
    | LowLevelFilterOp.HueRotate angle => (3, (angle : Rat) / ANGLE_FLOAT_TO_FIXED)
    | LowLevelFilterOp.Invert amount => (4, auToPx amount)
    | LowLevelFilterOp.Saturate amount => (5, auToPx amount)
    | LowLevelFilterOp.Sepia amount => (6, auToPx amount)
    | LowLevelFilterOp.Brightness amount => (7, auToPx amount)
    | LowLevelFilterOp.Opacity amount => (8, auToPx amount)
  (pair.1, round (pair.2 * 65535))

/-- `PrimitiveStore::add_blend_to_batch` (tiling.rs:171): pushes the
stacking-context item and one instance with the blend sentinels; a composite
batch is unreachable. -/
def PrimitiveStore.add_blend_to_batch (_s : PrimitiveStore)
    (stacking_context_index : Nat) (batch : PrimitiveBatch)
    (task_index src_task_index : RenderTaskIndex)
    (filter : LowLevelFilterOp) (z_sort_index : Int) : Except String PrimitiveBatch :=
  let fm := filterModeAndAmount filter
  let batch := { batch with
    items := batch.items ++ [PrimitiveBatchItem.StackingContext stacking_context_index] }
  match batch.data with
  | PrimitiveBatchData.Instances data =>
    Except.ok { batch with data := PrimitiveBatchData.Instances (data ++
      [{ global_prim_id := -1,
         prim_address := ⟨0⟩,
         task_index := (task_index : Int),
         clip_task_index := -1,
         layer_index := -1,
         sub_index := fm.1,
         z_sort_index := z_sort_index,
         user_data := ((src_task_index : Int), fm.2) }]) }
  | _ => Except.error "internal error: entered unreachable code"

/-- `PrimitiveStore::add_hardware_composite_to_batch` (tiling.rs:211). -/
def PrimitiveStore.add_hardware_composite_to_batch (_s : PrimitiveStore)
    (stacking_context_index : Nat) (batch : PrimitiveBatch)
    (task_index src_task_index : RenderTaskIndex) (z_sort_index : Int) :
    Except String PrimitiveBatch :=
  let batch := { batch with
    items := batch.items ++ [PrimitiveBatchItem.StackingContext stacking_context_index] }
  match batch.data with
  | PrimitiveBatchData.Instances data =>
    Except.ok { batch with data := PrimitiveBatchData.Instances (data ++
      [{ global_prim_id := -1,
         prim_address := ⟨0⟩,
         task_index := (task_index : Int),
         clip_task_index := -1,
         layer_index := -1,
         sub_index := -1,
         z_sort_index := z_sort_index,
         user_data := ((src_task_index : Int), 0) }]) }
  | _ => Except.error "internal error: entered unreachable code"

/-- The new instance rows pushed by `add_prim_to_batch` (tiling.rs:260-416),
one arm per batch kind (`Composite`, `HardwareComposite` and `Blend` are
unreachable there). Loop upper bounds are `i32` ranges: empty when the bound
is not positive. -/
def addPrimInstances (s : PrimitiveStore) (metadata : PrimitiveMetadata)
    (batch_kind : AlphaBatchKind) (render_tasks : RenderTaskCollection)
    (child_pass_index : RenderPassIndex)
    (global_prim_id : Int) (prim_address : GpuStoreAddress)
    (task_index clip_task_index : Int) (packed_layer_index : Int) (z_sort_index : Int) :
    Except String (List PrimitiveInstance) :=
  match batch_kind with
  | AlphaBatchKind.Composite => Except.error "internal error: entered unreachable code"
  | AlphaBatchKind.HardwareComposite => Except.error "internal error: entered unreachable code"
  | AlphaBatchKind.Blend => Except.error "internal error: entered unreachable code"
  | AlphaBatchKind.Rectangle =>
    Except.ok [{ task_index := task_index, clip_task_index := clip_task_index,
                 layer_index := packed_layer_index, global_prim_id := global_prim_id,
                 prim_address := prim_address, sub_index := 0,
                 user_data := (0, 0), z_sort_index := z_sort_index }]
  | AlphaBatchKind.TextRun =>
    match indexE s.cpu_text_runs metadata.cpu_prim_index with
    | Except.error e => Except.error e
    | Except.ok text_cpu =>
      Except.ok ((List.range metadata.gpu_data_count.toNat).map (fun glyph_index =>
        { task_index := task_index, clip_task_index := clip_task_index,
          layer_index := packed_layer_index, global_prim_id := global_prim_id,
          prim_address := prim_address,
          sub_index := metadata.gpu_data_address.addr + (glyph_index : Int),
          user_data := (text_cpu.resource_address + (glyph_index : Int), 0),
          z_sort_index := z_sort_index }))
  | AlphaBatchKind.Image =>
    match indexE s.cpu_images metadata.cpu_prim_index with
    | Except.error e => Except.error e
    | Except.ok image_cpu =>
      Except.ok [{ task_index := task_index, clip_task_index := clip_task_index,
                   layer_index := packed_layer_index, global_prim_id := global_prim_id,
                   prim_address := prim_address, sub_index := 0,
                   user_data := (image_cpu.resource_address, 0), z_sort_index := z_sort_index }]
  | AlphaBatchKind.ImageRect =>
    match indexE s.cpu_images metadata.cpu_prim_index with
    | Except.error e => Except.error e
    | Except.ok image_cpu =>
      Except.ok [{ task_index := task_index, clip_task_index := clip_task_index,
                   layer_index := packed_layer_index, global_prim_id := global_prim_id,
                   prim_address := prim_address, sub_index := 0,
                   user_data := (image_cpu.resource_address, 0), z_sort_index := z_sort_index }]
  | AlphaBatchKind.YuvImage =>
    match indexE s.cpu_yuv_images metadata.cpu_prim_index with
    | Except.error e => Except.error e
    | Except.ok image_yuv_cpu =>
      Except.ok [{ task_index := task_index, clip_task_index := clip_task_index,
                   layer_index := packed_layer_index, global_prim_id := global_prim_id,
                   prim_address := prim_address, sub_index := 0,
                   user_data := (image_yuv_cpu.yuv_resource_address, 0), z_sort_index := z_sort_index }]
  | AlphaBatchKind.Border =>
    Except.ok ((List.range 8).map (fun border_segment =>
      { task_index := task_index, clip_task_index := clip_task_index,
        layer_index := packed_layer_index, global_prim_id := global_prim_id,
        prim_address := prim_address, sub_index := (border_segment : Int),
        user_data := (0, 0), z_sort_index := z_sort_index }))
  | AlphaBatchKind.AlignedGradient =>
    Except.ok ((List.range (metadata.gpu_data_count - 1).toNat).map (fun part_index =>
      { task_index := task_index, clip_task_index := clip_task_index,
        layer_index := packed_layer_index, global_prim_id := global_prim_id,
        prim_address := prim_address,
        sub_index := metadata.gpu_data_address.addr + (part_index : Int),
        user_data := (0, 0), z_sort_index := z_sort_index }))
  | AlphaBatchKind.AngleGradient =>
    Except.ok [{ task_index := task_index, clip_task_index := clip_task_index,
                 layer_index := packed_layer_index, global_prim_id := global_prim_id,
                 prim_address := prim_address, sub_index := metadata.gpu_data_address.addr,
                 user_data := (metadata.gpu_data_count, 0), z_sort_index := z_sort_index }]
  | AlphaBatchKind.RadialGradient =>
    Except.ok [{ task_index := task_index, clip_task_index := clip_task_index,
                 layer_index := packed_layer_index, global_prim_id := global_prim_id,
                 prim_address := prim_address, sub_index := metadata.gpu_data_address.addr,
                 user_data := (metadata.gpu_data_count, 0), z_sort_index := z_sort_index }]
  | AlphaBatchKind.BoxShadow =>
    match optionE metadata.render_task with
    | Except.error e => Except.error e
    | Except.ok cache_task_id =>
      match render_tasks.get_task_index cache_task_id child_pass_index with
      | Except.error e => Except.error e
      | Except.ok cache_task_index =>
        Except.ok ((List.range metadata.gpu_data_count.toNat).map (fun rect_index =>
          { task_index := task_index, clip_task_index := clip_task_index,
            layer_index := packed_layer_index, global_prim_id := global_prim_id,
            prim_address := prim_address,
            sub_index := metadata.gpu_data_address.addr + (rect_index : Int),
            user_data := ((cache_task_index : Int), 0), z_sort_index := z_sort_index }))
  | AlphaBatchKind.CacheImage =>
    match optionE metadata.render_task with
    | Except.error e => Except.error e
    | Except.ok cache_task_id =>
      match render_tasks.get_task_index cache_task_id child_pass_index with
      | Except.error e => Except.error e
      | Except.ok cache_task_index =>
        Except.ok [{ task_index := task_index, clip_task_index := clip_task_index,
                     layer_index := packed_layer_index, global_prim_id := global_prim_id,
                     prim_address := prim_address, sub_index := 0,
                     user_data := ((cache_task_index : Int), 0), z_sort_index := z_sort_index }]

/-- `PrimitiveStore::add_prim_to_batch` (tiling.rs:236): resolves the clip
task (`OPAQUE_TASK_INDEX` when absent), pushes the batch item record and the
per-kind instance rows; a composite batch is unreachable. -/
def PrimitiveStore.add_prim_to_batch (s : PrimitiveStore) (prim_index : Nat)
    (batch : PrimitiveBatch) (packed_layer_index : Nat)
    (task_index : RenderTaskIndex) (render_tasks : RenderTaskCollection)
    (child_pass_index : RenderPassIndex) (z_sort_index : Int) :
    Except String PrimitiveBatch :=
  match s.get_metadata prim_index with
  | Except.error e => Except.error e
  | Except.ok metadata =>
    let packed_layer_index : Int := (packed_layer_index : Int)
    let global_prim_id : Int := (prim_index : Int)
    let prim_address := metadata.gpu_prim_index
    match
      (match metadata.clip_task with
       | some clip_task_id => render_tasks.get_task_index clip_task_id child_pass_index
       | none => Except.ok OPAQUE_TASK_INDEX) with
    | Except.error e => Except.error e
    | Except.ok clip_task_index =>
      let task_index : Int := (task_index : Int)
      let clip_task_index : Int := (clip_task_index : Int)
      let batch := { batch with
        items := batch.items ++ [PrimitiveBatchItem.Primitive prim_index] }
      match batch.data with
      | PrimitiveBatchData.Composite _ => Except.error "internal error: entered unreachable code"
      | PrimitiveBatchData.Instances data =>
        match addPrimInstances s metadata batch.key.kind render_tasks child_pass_index
            global_prim_id prim_address task_index clip_task_index packed_layer_index z_sort_index with
        | Except.error e => Except.error e
        | Except.ok newInstances =>
          Except.ok { batch with data := PrimitiveBatchData.Instances (data ++ newInstances) }

/-! ## Render-target context (`tiling.rs`) -/

/-- `StackingContext` (tiling.rs:1523): the batching paths under scrutiny
read only its device-space bounding rect. -/
structure StackingContext where
  bounding_rect : DeviceIntRect
deriving DecidableEq, Repr

/-- `ClipScrollGroup` (tiling.rs:1594): the fields the batcher reads. -/
structure ClipScrollGroup where
  packed_layer_index : Nat
  xf_rect : Option TransformedRect
deriving DecidableEq, Repr

/-- Modelled from `resource_cache.rs`: the resource cache is queried only
through `get_cached_image(image_key, ..).texture_id`; it is modelled as that
map from image-key tokens to textures. -/
structure ResourceCache where
  cached_texture : Nat → SourceTexture

/-- `RenderTargetContext` (tiling.rs:870). -/
structure RenderTargetContext where
  stacking_context_store : List StackingContext
  clip_scroll_group_store : List ClipScrollGroup
  prim_store : PrimitiveStore
  resource_cache : ResourceCache

/-! ## Alpha render items and the merge scan of `AlphaBatcher::build` -/

/-- Modelled from `render_task.rs`: `AlphaRenderItem`, the items staged on an
alpha batch task. -/
inductive AlphaRenderItem
  | Blend (stacking_context_index : Nat) (src_id : RenderTaskId)
      (filter : LowLevelFilterOp) (z : Int)
  | HardwareComposite (stacking_context_index : Nat) (src_id : RenderTaskId)
      (composite_op : HardwareCompositeOp) (z : Int)
  | Composite (stacking_context_index : Nat) (backdrop_id : RenderTaskId)
      (src_id : RenderTaskId) (info : MixBlendMode) (z : Int)
  | Primitive (clip_scroll_group_index : Nat) (prim_index : Nat) (z : Int)
deriving DecidableEq, Repr

/-- The intersection test on one entry of a batch's `items`
(tiling.rs:637-648): a stacking-context item uses that context's bounding
rect, a primitive item the primitive's (unwrapped) device bounding rect. -/
def batchItemIntersects (ctx : RenderTargetContext) (item_bounding_rect : DeviceIntRect)
    (item : PrimitiveBatchItem) : Except String Bool :=
  match item with
  | PrimitiveBatchItem.StackingContext stacking_context_index =>
    match indexE ctx.stacking_context_store stacking_context_index with
    | Except.error e => Except.error e
    | Except.ok stacking_context =>
      Except.ok (stacking_context.bounding_rect.intersects item_bounding_rect)
  | PrimitiveBatchItem.Primitive prim_index =>
    match indexE ctx.prim_store.cpu_bounding_rects prim_index with
    | Except.error e => Except.error e
    | Except.ok bounding_rect =>
      match optionE bounding_rect with
      | Except.error e => Except.error e
      | Except.ok rect => Except.ok (rect.intersects item_bounding_rect)

/-- The inner loop over a batch's `items` (tiling.rs:637-653): stops at the
first intersecting item. -/
def anyItemIntersects (ctx : RenderTargetContext) (item_bounding_rect : DeviceIntRect) :
    List PrimitiveBatchItem → Except String Bool
  | [] => Except.ok false
  | item :: rest =>
    match batchItemIntersects ctx item_bounding_rect item with
    | Except.error e => Except.error e
    | Except.ok intersects =>
      if intersects then Except.ok true
      else anyItemIntersects ctx item_bounding_rect rest

/-- The body of the labelled scan loop of `AlphaBatcher::build`
(tiling.rs:627-654), over the already-enumerated, reversed and truncated
batch list: reuse the first compatible batch; stop scanning (yielding no
batch) as soon as an incompatible batch holds an intersecting item. -/
def mergeScan (ctx : RenderTargetContext) (batch_key : AlphaBatchKey)
    (item_bounding_rect : DeviceIntRect) :
    List (Nat × PrimitiveBatch) → Except String (Option Nat)
  | [] => Except.ok none
  | (batch_index, batch) :: rest =>
    if batch.key.is_compatible_with batch_key then Except.ok (some batch_index)
    else
      match anyItemIntersects ctx item_bounding_rect batch.items with
      | Except.error e => Except.error e
      | Except.ok intersects =>
        if intersects then Except.ok none
        else mergeScan ctx batch_key item_bounding_rect rest

/-- The merge search of `AlphaBatcher::build` (tiling.rs:626-654):
`alpha_batches.iter().enumerate().rev().take(10)` — the last ten batches,
newest first, with their original indices. -/
def findMergeIndex (ctx : RenderTargetContext) (batch_key : AlphaBatchKey)
    (item_bounding_rect : DeviceIntRect) (alpha_batches : List PrimitiveBatch) :
    Except String (Option Nat) :=
  mergeScan ctx batch_key item_bounding_rect (alpha_batches.enum.reverse.take 10)

/-- The batch-key and bounding-rect derivation of the translucent loop of
`AlphaBatcher::build` (tiling.rs:558-624), for the three item kinds that
take the merge path (a `Composite` item never reaches this computation). -/
def deriveKeyAndRect (ctx : RenderTargetContext) (item : AlphaRenderItem) :
    Except String (AlphaBatchKey × DeviceIntRect) :=
  match item with
  | AlphaRenderItem.Blend stacking_context_index _ _ _ =>
    match indexE ctx.stacking_context_store stacking_context_index with
    | Except.error e => Except.error e
    | Except.ok stacking_context =>
      Except.ok (AlphaBatchKey.new AlphaBatchKind.Blend AlphaBatchKeyFlags.empty
        BlendMode.Alpha BatchTextures.no_texture, stacking_context.bounding_rect)
  | AlphaRenderItem.HardwareComposite stacking_context_index _ composite_op _ =>
    match indexE ctx.stacking_context_store stacking_context_index with
    | Except.error e => Except.error e
    | Except.ok stacking_context =>
      Except.ok (AlphaBatchKey.new AlphaBatchKind.HardwareComposite AlphaBatchKeyFlags.empty
        composite_op.to_blend_mode BatchTextures.no_texture, stacking_context.bounding_rect)
  | AlphaRenderItem.Composite _ _ _ _ _ =>
    Except.error "composite items are batched standalone"
  | AlphaRenderItem.Primitive clip_scroll_group_index prim_index _ =>
    match indexE ctx.clip_scroll_group_store clip_scroll_group_index with
    | Except.error e => Except.error e
    | Except.ok group =>
      match ctx.prim_store.get_metadata prim_index with
      | Except.error e => Except.error e
      | Except.ok prim_metadata =>
        match optionE group.xf_rect with
        | Except.error e => Except.error e
        | Except.ok xf_rect =>
          let transform_kind := xf_rect.kind
          let needs_clipping := prim_metadata.clip_task.isSome
          let needs_blending := needsBlending transform_kind prim_metadata
          match ctx.prim_store.get_blend_mode needs_blending prim_metadata with
          | Except.error e => Except.error e
          | Except.ok blend_mode =>
            let needs_clipping_flag :=
              if needs_clipping then NEEDS_CLIPPING else AlphaBatchKeyFlags.empty
            let flags :=
              match transform_kind with
              | TransformedRectKind.AxisAligned => AXIS_ALIGNED.orFlags needs_clipping_flag
              | _ => needs_clipping_flag
            match ctx.prim_store.get_batch_kind prim_metadata with
            | Except.error e => Except.error e
            | Except.ok batch_kind =>
              match ctx.prim_store.get_color_textures prim_metadata with
              | Except.error e => Except.error e
              | Except.ok colors =>
                match indexE ctx.prim_store.cpu_bounding_rects prim_index with
                | Except.error e => Except.error e
                | Except.ok bounding_rect_opt =>
                  match optionE bounding_rect_opt with
                  | Except.error e => Except.error e
                  | Except.ok bounding_rect =>
                    Except.ok (AlphaBatchKey.new batch_kind flags blend_mode colors, bounding_rect)

/-- The tail of one iteration of the translucent loop of
`AlphaBatcher::build` (tiling.rs:675-705): index the selected batch
(`alpha_batches[alpha_batch_index.unwrap()]`), encode the item into it with
the matching `add_*` helper, and store the updated batch back. -/
def encodeAlphaItem (ctx : RenderTargetContext) (render_tasks : RenderTaskCollection)
    (child_pass_index : RenderPassIndex) (task_index : RenderTaskIndex)
    (item : AlphaRenderItem) (batches : List PrimitiveBatch) (batch_index : Nat) :
    Except String (List PrimitiveBatch) :=
  match indexE batches batch_index with
  | Except.error e => Except.error e
  | Except.ok batch =>
    match
      (match item with
       | AlphaRenderItem.Composite _ _ _ _ _ =>
         Except.error "internal error: entered unreachable code"
       | AlphaRenderItem.Blend stacking_context_index src_id info z =>
         match render_tasks.get_static_task_index src_id with
         | Except.error e => Except.error e
         | Except.ok src_index =>
           ctx.prim_store.add_blend_to_batch stacking_context_index batch
             task_index src_index info z
       | AlphaRenderItem.HardwareComposite stacking_context_index src_id _ z =>
         match render_tasks.get_static_task_index src_id with
         | Except.error e => Except.error e
         | Except.ok src_index =>
           ctx.prim_store.add_hardware_composite_to_batch stacking_context_index
             batch task_index src_index z
       | AlphaRenderItem.Primitive clip_scroll_group_index prim_index z =>
         match indexE ctx.clip_scroll_group_store clip_scroll_group_index with
         | Except.error e => Except.error e
         | Except.ok group =>
           ctx.prim_store.add_prim_to_batch prim_index batch
             group.packed_layer_index task_index render_tasks child_pass_index z) with
    | Except.error e => Except.error e
    | Except.ok updated =>
      Except.ok (batches.set batch_index updated)

/-- One iteration of the translucent loop of `AlphaBatcher::build`
(tiling.rs:557-706): a `Composite` item always appends its own standalone
batch; every other item derives a key, searches the last ten batches for a
mergeable one, appends a new batch when none is found, and encodes itself
into the selected batch (`encodeAlphaItem`). -/
def processAlphaItem (ctx : RenderTargetContext) (render_tasks : RenderTaskCollection)
    (child_pass_index : RenderPassIndex) (task_index : RenderTaskIndex)
    (alpha_batches : List PrimitiveBatch) (item : AlphaRenderItem) :
    Except String (List PrimitiveBatch) :=
  match item with
  | AlphaRenderItem.Composite stacking_context_index backdrop_id src_id info z =>
    match render_tasks.get_task_index backdrop_id child_pass_index with
    | Except.error e => Except.error e
    | Except.ok backdrop_index =>
      match render_tasks.get_static_task_index src_id with
      | Except.error e => Except.error e
      | Except.ok src_index =>
        Except.ok (alpha_batches ++
          [PrimitiveBatch.new_composite stacking_context_index task_index
            backdrop_index src_index info z])
  | _ =>
    match deriveKeyAndRect ctx item with
    | Except.error e => Except.error e
    | Except.ok (batch_key, item_bounding_rect) =>
      match findMergeIndex ctx batch_key item_bounding_rect alpha_batches with
      | Except.error e => Except.error e
      | Except.ok (some batch_index) =>
        encodeAlphaItem ctx render_tasks child_pass_index task_index item
          alpha_batches batch_index
      | Except.ok none =>
        match
          (match item with
           | AlphaRenderItem.Composite _ _ _ _ _ =>
             Except.error "internal error: entered unreachable code"
           | AlphaRenderItem.HardwareComposite _ _ _ _ =>
             PrimitiveBatch.new_instances AlphaBatchKind.HardwareComposite batch_key
           | AlphaRenderItem.Blend _ _ _ _ =>
             PrimitiveBatch.new_instances AlphaBatchKind.Blend batch_key
           | AlphaRenderItem.Primitive _ prim_index _ =>
             match ctx.prim_store.get_metadata prim_index with
             | Except.error e => Except.error e
             | Except.ok prim_metadata =>
               match ctx.prim_store.get_batch_kind prim_metadata with
               | Except.error e => Except.error e
               | Except.ok batch_kind =>
                 PrimitiveBatch.new_instances batch_kind batch_key) with
        | Except.error e => Except.error e
        | Except.ok new_batch =>
          encodeAlphaItem ctx render_tasks child_pass_index task_index item
            (alpha_batches ++ [new_batch]) alpha_batches.length


/-! ## Clip batcher (`tiling.rs`) -/

/-- Modelled from `prim_store.rs`: `CLIP_DATA_GPU_SIZE`, the GPU-block
stride of one clip entry (the claims use it only symbolically). -/
def CLIP_DATA_GPU_SIZE : Nat := 5

/-- Modelled from `render_task.rs`: the segments of a clip-mask draw, with
their `as i32` discriminants. -/
inductive MaskSegment
  | All
  | TopLeftCorner
  | TopRightCorner
  | BottomLeftCorner
  | BottomRightCorner
deriving DecidableEq, Repr

/-- The `as i32` cast of a `MaskSegment` (declaration-order discriminant). -/
def MaskSegment.toInt : MaskSegment → Int
  | .All => 0
  | .TopLeftCorner => 1
  | .TopRightCorner => 2
  | .BottomLeftCorner => 3
  | .BottomRightCorner => 4

/-- Modelled from `render_task.rs`: the geometry kind of a clip mask task. -/
inductive MaskGeometryKind
  | Default
  | CornersOnly
deriving DecidableEq, Repr

/-- Modelled from `mask_cache.rs`: an image mask, identified by its
image-key token. -/
structure ImageMask where
  image : Nat
deriving DecidableEq, Repr

/-- Modelled from `mask_cache.rs`: the address range of the clip data. -/
structure ClipAddressRange where
  start : GpuStoreAddress
deriving DecidableEq, Repr

/-- Modelled from `mask_cache.rs`: the mask-cache info fields read by
`ClipBatcher::add`. -/
structure MaskCacheInfo where
  effective_clip_count : Nat
  clip_range : ClipAddressRange
  image : Option (ImageMask × GpuStoreAddress)
deriving DecidableEq, Repr

/-- `ClipBatcher` (tiling.rs:791): the `HashMap` of per-texture image
instances is modelled as its lookup function. -/
structure ClipBatcher where
  rectangles : List CacheClipInstance
  images : SourceTexture → List CacheClipInstance

/-- `ClipBatcher::new` (tiling.rs:799). -/
def ClipBatcher.new : ClipBatcher :=
  { rectangles := [], images := fun _ => [] }

/-- One iteration of the `for clip_index in 0..effective_clip_count` loop of
`ClipBatcher::add` (tiling.rs:820-855): push one `All`-segment rectangle
instance (`Default` geometry) or four corner instances (`CornersOnly`), each
addressed at `clip_range.start + clip_index * CLIP_DATA_GPU_SIZE`. -/
def clipRectanglesStep (inst : CacheClipInstance) (info : MaskCacheInfo)
    (geometry_kind : MaskGeometryKind) (rects : List CacheClipInstance)
    (clip_index : Nat) : List CacheClipInstance :=
  let offset := info.clip_range.start.addr + ((CLIP_DATA_GPU_SIZE * clip_index : Nat) : Int)
  match geometry_kind with
  | MaskGeometryKind.Default =>
    rects ++ [{ inst with address := ⟨offset⟩, segment := MaskSegment.All.toInt }]
  | MaskGeometryKind.CornersOnly =>
    rects ++
      [{ inst with address := ⟨offset⟩, segment := MaskSegment.TopLeftCorner.toInt },
       { inst with address := ⟨offset⟩, segment := MaskSegment.TopRightCorner.toInt },
       { inst with address := ⟨offset⟩, segment := MaskSegment.BottomLeftCorner.toInt },
       { inst with address := ⟨offset⟩, segment := MaskSegment.BottomRightCorner.toInt }]

/-- The body of the `for (layer, mask_info) in clips` loop of
`ClipBatcher::add` (tiling.rs:812-866). -/
def ClipBatcher.addEntry (task_index : RenderTaskIndex) (resource_cache : ResourceCache)
    (geometry_kind : MaskGeometryKind) (cb : ClipBatcher) (entry : Nat × MaskCacheInfo) :
    ClipBatcher :=
  let packed_layer_index := entry.1
  let info := entry.2
  let inst : CacheClipInstance :=
    { task_id := (task_index : Int),
      layer_index := (packed_layer_index : Int),
      address := ⟨0⟩,
      segment := 0 }
  let newRectangles := (List.range info.effective_clip_count).foldl
    (clipRectanglesStep inst info geometry_kind) cb.rectangles
  let cb := { cb with rectangles := newRectangles }
  match info.image with
  | some (mask, address) =>
    let texture_id := resource_cache.cached_texture mask.image
    { cb with images := fun t =>
        if t = texture_id then cb.images t ++ [{ inst with address := address }]
        else cb.images t }
  | none => cb

/-- `ClipBatcher::add` (tiling.rs:806): folds the entry body over `clips`;
for each `(layer, mask_info)` entry, the rectangle instances of every
effective clip are pushed, and an image mask appends one further instance to
the bucket of its resolved texture. -/
def ClipBatcher.add (cb : ClipBatcher) (task_index : RenderTaskIndex)
    (clips : List (Nat × MaskCacheInfo)) (resource_cache : ResourceCache)
    (geometry_kind : MaskGeometryKind) : ClipBatcher :=
  clips.foldl (ClipBatcher.addEntry task_index resource_cache geometry_kind) cb

/-! ## Texture allocator and render-target lists (`tiling.rs`) -/

/-- `TextureAllocator` (tiling.rs:877): wraps a page allocator (the
`TexturePage` of `texture_cache.rs`, here abstracted to a caller-supplied
state type) and tracks the union of allocated rects for scissored clears. -/
structure TextureAllocator (P : Type) where
  page_allocator : P
  used_rect : DeviceIntRect

/-- The page-allocation policy of the external `TexturePage`
(`texture_cache.rs`): any function from its state and the requested size to
an optional origin and successor state. -/
def PageAllocateFn (P : Type) : Type :=
  P → DeviceUintSize → Option DeviceUintPoint × P

/-- `TextureAllocator::allocate` (tiling.rs:898): delegate to the page
allocator; on success extend `used_rect` with the allocated rect. -/
def TextureAllocator.allocate {P : Type} (page_allocate : PageAllocateFn P)
    (ta : TextureAllocator P) (size : DeviceUintSize) :
    Option DeviceUintPoint × TextureAllocator P :=
  let result := page_allocate ta.page_allocator size
  match result with
  | (some origin, page_allocator) =>
    let origin_int : DeviceIntPoint := ⟨(origin.x : Int), (origin.y : Int)⟩
    let size_int : DeviceIntSize := ⟨(size.width : Int), (size.height : Int)⟩
    let rect : DeviceIntRect := ⟨origin_int, size_int⟩
    (some origin,
     { page_allocator := page_allocator, used_rect := rect.union ta.used_rect })
  | (none, page_allocator) =>
    (none, { ta with page_allocator := page_allocator })

/-- The `RenderTarget` trait (tiling.rs:917), as the record of operations a
target type exposes to `RenderTargetList` and `RenderPass`. `add_task`
borrows the task collection immutably, as in the source. -/
structure RenderTargetOps (T : Type) where
  renew : DeviceUintSize → T
  allocate : T → DeviceUintSize → Option DeviceUintPoint × T
  add_task : T → RenderTask → RenderTargetContext → RenderTaskCollection → RenderPassIndex → T

/-- `RenderTargetList` (tiling.rs:938). -/
structure RenderTargetList (T : Type) where
  target_size : DeviceUintSize
  targets : List T

/-- `RenderTargetList::new` (tiling.rs:944). -/
def RenderTargetList.new {T : Type} (ops : RenderTargetOps T)
    (target_size : DeviceUintSize) (create_initial_target : Bool) : RenderTargetList T :=
  { target_size := target_size,
    targets := if create_initial_target then [ops.renew target_size] else [] }

/-- `RenderTargetList::add_task` (tiling.rs:970): delegates to the last
target (`unwrap` panics on an empty list). -/
def RenderTargetList.add_task {T : Type} (ops : RenderTargetOps T)
    (l : RenderTargetList T) (task : RenderTask) (ctx : RenderTargetContext)
    (render_tasks : RenderTaskCollection) (pass_index : RenderPassIndex) :
    Except String (RenderTargetList T) :=
  match l.targets.getLast? with
  | none => Except.error "called unwrap on a None value"
  | some target =>
    Except.ok { l with targets :=
      l.targets.dropLast ++ [ops.add_task target task ctx render_tasks pass_index] }

/-- `RenderTargetList::allocate` (tiling.rs:978): try the last target first;
on failure (or an empty list) create a target of the uniform size, allocate
from it (`expect` aborts when even that fails) and push it. The returned
index is the index of the last target. -/
def RenderTargetList.allocate {T : Type} (ops : RenderTargetOps T)
    (l : RenderTargetList T) (alloc_size : DeviceUintSize) :
    Except String (DeviceUintPoint × RenderTargetIndex × RenderTargetList T) :=
  let afterLast : Option DeviceUintPoint × RenderTargetList T :=
    match l.targets.getLast? with
    | none => (none, l)
    | some target =>
      let r := ops.allocate target alloc_size
      (r.1, { l with targets := l.targets.dropLast ++ [r.2] })
  match afterLast with
  | (some origin, l') =>
    Except.ok (origin, l'.targets.length - 1, l')
  | (none, l') =>
    let new_target := ops.renew l.target_size
    let r := ops.allocate new_target alloc_size
    match r.1 with
    | none => Except.error "Each render task must allocate <= size of one target!"
    | some origin =>
      let l'' := { l' with targets := l'.targets ++ [r.2] }
      Except.ok (origin, l''.targets.length - 1, l'')

/-! ## Render pass (`tiling.rs`) -/

/-- `RenderPass` (tiling.rs:1215), generic over the two target types exactly
as its two `RenderTargetList` fields are (`ColorRenderTarget` and
`AlphaRenderTarget` in the source; the pass logic touches them only through
the `RenderTarget` trait). -/
structure RenderPass (Tc Ta : Type) where
  pass_index : RenderPassIndex
  is_framebuffer : Bool
  tasks : List RenderTask
  color_targets : RenderTargetList Tc
  alpha_targets : RenderTargetList Ta

/-- `RenderPass::new` (tiling.rs:1226): the color list is pre-seeded with an
initial target only for the framebuffer pass. -/
def RenderPass.new {Tc Ta : Type} (opsC : RenderTargetOps Tc) (opsA : RenderTargetOps Ta)
    (pass_index : RenderPassIndex) (is_framebuffer : Bool) (size : DeviceUintSize) :
    RenderPass Tc Ta :=
  { pass_index := pass_index,
    is_framebuffer := is_framebuffer,
    color_targets := RenderTargetList.new opsC size is_framebuffer,
    alpha_targets := RenderTargetList.new opsA size false,
    tasks := [] }

/-- `RenderPass::add_render_task` (tiling.rs:1238). -/
def RenderPass.add_render_task {Tc Ta : Type} (p : RenderPass Tc Ta) (task : RenderTask) :
    RenderPass Tc Ta :=
  { p with tasks := p.tasks ++ [task] }

/-- `RenderPass::add_task` (tiling.rs:1242): dispatch the task to the target
list matching its kind. -/
def RenderPass.add_task {Tc Ta : Type} (opsC : RenderTargetOps Tc)
    (opsA : RenderTargetOps Ta) (p : RenderPass Tc Ta) (task : RenderTask)
    (ctx : RenderTargetContext) (render_tasks : RenderTaskCollection) :
    Except String (RenderPass Tc Ta) :=
  match task.target_kind with
  | RenderTargetKind.Color =>
    match RenderTargetList.add_task opsC p.color_targets task ctx render_tasks p.pass_index with
    | Except.error e => Except.error e
    | Except.ok l => Except.ok { p with color_targets := l }
  | RenderTargetKind.Alpha =>
    match RenderTargetList.add_task opsA p.alpha_targets task ctx render_tasks p.pass_index with
    | Except.error e => Except.error e
    | Except.ok l => Except.ok { p with alpha_targets := l }

/-- `RenderPass::allocate_target` (tiling.rs:1252). -/
def RenderPass.allocate_target {Tc Ta : Type} (opsC : RenderTargetOps Tc)
    (opsA : RenderTargetOps Ta) (p : RenderPass Tc Ta) (kind : RenderTargetKind)
    (alloc_size : DeviceUintSize) :
    Except String (DeviceUintPoint × RenderTargetIndex × RenderPass Tc Ta) :=
  match kind with
  | RenderTargetKind.Color =>
    match RenderTargetList.allocate opsC p.color_targets alloc_size with
    | Except.error e => Except.error e
    | Except.ok (origin, index, l) => Except.ok (origin, index, { p with color_targets := l })
  | RenderTargetKind.Alpha =>
    match RenderTargetList.allocate opsA p.alpha_targets alloc_size with
    | Except.error e => Except.error e
    | Except.ok (origin, index, l) => Except.ok (origin, index, { p with alpha_targets := l })

/-- The `i32 as u32` cast used when forming `alloc_size` (tiling.rs:1306). -/
def i32AsU32 (i : Int) : Nat := (i % 4294967296).toNat

/-- The per-task body of the loop of `RenderPass::build` (tiling.rs:1282-1317).
A task with a `Dynamic` location and a `Dynamic` id whose `(key, pass)` pair
already has an allocation is skipped entirely (`continue`), after the
`debug_assert_eq!` that the recorded size matches. Otherwise a dynamic
location is allocated from the matching target list and patched into the
task, and every non-skipped task is registered in the collection and
dispatched to the matching target list. -/
def RenderPass.buildStep {Tc Ta : Type} (opsC : RenderTargetOps Tc)
    (opsA : RenderTargetOps Ta) (ctx : RenderTargetContext)
    (state : RenderPass Tc Ta × RenderTaskCollection) (task : RenderTask) :
    Except String (RenderPass Tc Ta × RenderTaskCollection) :=
  let p := state.1
  let render_tasks := state.2
  let target_kind := task.target_kind
  let located : Except String (Option (RenderPass Tc Ta × RenderTask)) :=
    match task.location with
    | RenderTaskLocation.Fixed => Except.ok (some (p, task))
    | RenderTaskLocation.Dynamic _ size =>
      let dedup : Option (Option DeviceIntRect) :=
        match task.id with
        | RenderTaskId.Static _ => some none
        | RenderTaskId.Dynamic key =>
          match render_tasks.get_dynamic_allocation p.pass_index key with
          | some rect => if rect.size = size then none else some (some rect)
          | none => some none
      match dedup with
      | none => Except.ok none
      | some (some _) => Except.error "debug assertion failed: allocated size differs"
      | some none =>
        let alloc_size : DeviceUintSize := ⟨i32AsU32 size.width, i32AsU32 size.height⟩
        match RenderPass.allocate_target opsC opsA p target_kind alloc_size with
        | Except.error e => Except.error e
        | Except.ok (alloc_origin, target_index, p') =>
          let origin : DeviceIntPoint := ⟨(alloc_origin.x : Int), (alloc_origin.y : Int)⟩
          Except.ok (some (p',
            { task with location := RenderTaskLocation.Dynamic (some (origin, target_index)) size }))
  match located with
  | Except.error e => Except.error e
  | Except.ok none => Except.ok (p, render_tasks)
  | Except.ok (some (p', task')) =>
    match render_tasks.add task' p.pass_index with
    | Except.error e => Except.error e
    | Except.ok (render_tasks', _) =>
      match RenderPass.add_task opsC opsA p' task' ctx render_tasks' with
      | Except.error e => Except.error e
      | Except.ok p'' => Except.ok (p'', render_tasks')

/-- The task loop of `RenderPass::build` (tiling.rs:1277-1317): the queued
tasks are drained and processed in insertion order. -/
def RenderPass.buildTasks {Tc Ta : Type} (opsC : RenderTargetOps Tc)
    (opsA : RenderTargetOps Ta) (ctx : RenderTargetContext) (p : RenderPass Tc Ta)
    (render_tasks : RenderTaskCollection) :
    Except String (RenderPass Tc Ta × RenderTaskCollection) :=
  List.foldlM (RenderPass.buildStep opsC opsA ctx)
    ({ p with tasks := [] }, render_tasks) p.tasks

/-! ## Claims C9 and C10 -/

/-- Claim C9 counterexample: the source struct does not declare its fields
in the order the specification asserts — the seventh declared 32-bit field
is `z_sort_index`, not `user_data[0]`. -/
theorem claim_C9_counterexample : PrimitiveInstance.fieldOrder ≠ specClaimedFieldOrder := by
  decide

/-- Claim C9 (amended): `PrimitiveInstance` declares the same nine 32-bit
fields the spec lists, but in the order `global_prim_id, prim_address,
task_index, clip_task_index, layer_index, sub_index, z_sort_index,
user_data[0], user_data[1]`: `z_sort_index` is the seventh field, declared
before `user_data`, not trailing after it. -/
theorem claim_C9_field_order :
    PrimitiveInstance.fieldOrder =
      ["global_prim_id", "prim_address", "task_index", "clip_task_index",
       "layer_index", "sub_index", "z_sort_index", "user_data[0]", "user_data[1]"] ∧
    PrimitiveInstance.fieldOrder.Perm specClaimedFieldOrder := by
  constructor
  · rfl
  · decide

/-- Claim C10: `TextureAllocator::allocate` mutates `used_rect` only on
success — when the page allocator yields no origin the returned state keeps
the old `used_rect` unchanged, and when it yields an origin the new
`used_rect` is the rectangle union of the allocated rect with the old
`used_rect`. -/
theorem claim_C10_used_rect {P : Type} (page_allocate : PageAllocateFn P)
    (ta : TextureAllocator P) (size : DeviceUintSize) :
    (∀ pa', page_allocate ta.page_allocator size = (none, pa') →
      (TextureAllocator.allocate page_allocate ta size).1 = none ∧
      (TextureAllocator.allocate page_allocate ta size).2.used_rect = ta.used_rect) ∧
    (∀ origin pa', page_allocate ta.page_allocator size = (some origin, pa') →
      (TextureAllocator.allocate page_allocate ta size).1 = some origin ∧
      (TextureAllocator.allocate page_allocate ta size).2.used_rect =
        DeviceIntRect.union
          ⟨⟨(origin.x : Int), (origin.y : Int)⟩, ⟨(size.width : Int), (size.height : Int)⟩⟩
          ta.used_rect) := by
  constructor
  · intro pa' h
    simp [TextureAllocator.allocate, h]
  · intro origin pa' h
    simp [TextureAllocator.allocate, h]

/-- Claim C10 witness: a concrete page allocator exercising both the failure
and the success branch of the theorem. -/
theorem claim_C10_witness :
    (fun (_ : Unit) (_ : DeviceUintSize) =>
        ((some (⟨3, 4⟩ : DeviceUintPoint), ()) : Option DeviceUintPoint × Unit))
      () (⟨7, 9⟩ : DeviceUintSize) = (some ⟨3, 4⟩, ()) ∧
    (TextureAllocator.allocate
        (fun (_ : Unit) (_ : DeviceUintSize) =>
          ((some (⟨3, 4⟩ : DeviceUintPoint), ()) : Option DeviceUintPoint × Unit))
        ⟨(), DeviceIntRect.zero⟩ ⟨7, 9⟩).2.used_rect =
      DeviceIntRect.union ⟨⟨3, 4⟩, ⟨7, 9⟩⟩ DeviceIntRect.zero := by
  refine ⟨rfl, ?_⟩
  exact ((claim_C10_used_rect
    (fun (_ : Unit) (_ : DeviceUintSize) =>
      ((some (⟨3, 4⟩ : DeviceUintPoint), ()) : Option DeviceUintPoint × Unit))
    ⟨(), DeviceIntRect.zero⟩ ⟨7, 9⟩).2 ⟨3, 4⟩ () rfl).2

/-! ## Claim C5 -/

/-- Claim C5: `get_blend_mode` returns, for a text run with zero blur,
`Subpixel` carrying the run's color exactly when the render mode is
`Subpixel` and `Alpha` otherwise; for a blurred text run `Alpha` regardless
of `needs_blending`; for images and all gradients `PremultipliedAlpha` when
blending is needed and `None` otherwise; for every other primitive kind
`Alpha` when blending is needed and `None` otherwise — and `needs_blending`
(as computed in `AlphaBatcher::build`) holds exactly when the transform is
complex, or the primitive is not opaque, or it has a clip task. -/
theorem claim_C5_blend_mode (s : PrimitiveStore) (metadata : PrimitiveMetadata)
    (needs_blending : Bool) (transform_kind : TransformedRectKind) :
    (needsBlending transform_kind metadata = true ↔
      (transform_kind = TransformedRectKind.Complex ∨
       metadata.is_opaque = false ∨
       metadata.clip_task.isSome = true)) ∧
    (∀ text_run_cpu, metadata.prim_kind = PrimitiveKind.TextRun →
      indexE s.cpu_text_runs metadata.cpu_prim_index = Except.ok text_run_cpu →
      text_run_cpu.blur_radius = 0 →
      s.get_blend_mode needs_blending metadata = Except.ok
        (if text_run_cpu.render_mode = FontRenderMode.Subpixel then
          BlendMode.Subpixel text_run_cpu.color
         else BlendMode.Alpha)) ∧
    (∀ text_run_cpu, metadata.prim_kind = PrimitiveKind.TextRun →
      indexE s.cpu_text_runs metadata.cpu_prim_index = Except.ok text_run_cpu →
      text_run_cpu.blur_radius ≠ 0 →
      s.get_blend_mode needs_blending metadata = Except.ok BlendMode.Alpha) ∧
    ((metadata.prim_kind = PrimitiveKind.Image ∨
      metadata.prim_kind = PrimitiveKind.AlignedGradient ∨
      metadata.prim_kind = PrimitiveKind.AngleGradient ∨
      metadata.prim_kind = PrimitiveKind.RadialGradient) →
      s.get_blend_mode needs_blending metadata = Except.ok
        (if needs_blending then BlendMode.PremultipliedAlpha else BlendMode.None)) ∧
    ((metadata.prim_kind = PrimitiveKind.Rectangle ∨
      metadata.prim_kind = PrimitiveKind.YuvImage ∨
      metadata.prim_kind = PrimitiveKind.Border ∨
      metadata.prim_kind = PrimitiveKind.BoxShadow) →
      s.get_blend_mode needs_blending metadata = Except.ok
        (if needs_blending then BlendMode.Alpha else BlendMode.None)) := by
  refine ⟨?_, ?_, ?_, ?_, ?_⟩
  · simp only [needsBlending, Bool.or_eq_true, decide_eq_true_eq, Bool.not_eq_true']
    tauto
  · intro text_run_cpu hkind hidx hblur
    rw [PrimitiveStore.get_blend_mode, hkind]
    simp only [hidx, hblur, if_pos rfl]
    cases hmode : text_run_cpu.render_mode <;> simp [hmode]
  · intro text_run_cpu hkind hidx hblur
    rw [PrimitiveStore.get_blend_mode, hkind]
    simp [hidx, hblur]
  · intro hkind
    rcases hkind with h | h | h | h <;> rw [PrimitiveStore.get_blend_mode, h]
  · intro hkind
    rcases hkind with h | h | h | h <;> rw [PrimitiveStore.get_blend_mode, h]

/-- A one-primitive store used by the claim C5 witness: a single subpixel
text run with zero blur. -/
def c5TextRun : TextRunCpu :=
  { blur_radius := 0, render_mode := FontRenderMode.Subpixel,
    color := ⟨1, 0, 0, 1⟩, color_texture_id := SourceTexture.TextureCache 7,
    resource_address := 11 }

/-- The metadata of the claim C5 witness primitive. -/
def c5Metadata : PrimitiveMetadata :=
  { prim_kind := PrimitiveKind.TextRun, cpu_prim_index := 0,
    gpu_prim_index := ⟨0⟩, clip_task := none, render_task := none,
    is_opaque := false, gpu_data_address := ⟨0⟩, gpu_data_count := 1 }

/-- The store of the claim C5 witness. -/
def c5Store : PrimitiveStore :=
  { cpu_metadata := [c5Metadata], cpu_text_runs := [c5TextRun], cpu_images := [],
    cpu_yuv_images := [], cpu_bounding_rects := [] }

/-- Claim C5 witness: the concrete store evaluated through the theorem. -/
theorem claim_C5_witness :
    c5Metadata.prim_kind = PrimitiveKind.TextRun ∧
    indexE c5Store.cpu_text_runs c5Metadata.cpu_prim_index = Except.ok c5TextRun ∧
    c5TextRun.blur_radius = 0 ∧
    c5Store.get_blend_mode true c5Metadata = Except.ok (BlendMode.Subpixel ⟨1, 0, 0, 1⟩) := by
  refine ⟨rfl, rfl, rfl, ?_⟩
  have h := (claim_C5_blend_mode c5Store c5Metadata true TransformedRectKind.Complex).2.1
    c5TextRun rfl rfl rfl
  rw [h]
  rfl

/-! ## Claim C3 -/

/-- Claim C3: `RenderTaskCollection::add` with a dynamic id fatally aborts
when `(key, pass)` was already inserted, when the location is `Fixed`, or
when the dynamic origin is still unresolved; when `(key, pass)` is fresh and
the location is `Dynamic` with a resolved origin it appends exactly one
task-data record and maps `(key, pass)` to the new index and the rect formed
from the resolved origin and the location's size. -/
theorem claim_C3_add_dynamic (c : RenderTaskCollection) (task : RenderTask)
    (pass : RenderPassIndex) (key : RenderTaskKey)
    (hid : task.id = RenderTaskId.Dynamic key) :
    ((c.lookupDynamic (key, pass)).isSome = true →
      ∃ e, c.add task pass = Except.error e) ∧
    ((c.lookupDynamic (key, pass)).isSome = false →
      task.location = RenderTaskLocation.Fixed →
      ∃ e, c.add task pass = Except.error e) ∧
    (∀ size, (c.lookupDynamic (key, pass)).isSome = false →
      task.location = RenderTaskLocation.Dynamic none size →
      ∃ e, c.add task pass = Except.error e) ∧
    (∀ origin target_index size,
      (c.lookupDynamic (key, pass)).isSome = false →
      task.location = RenderTaskLocation.Dynamic (some (origin, target_index)) size →
      ∃ c', c.add task pass = Except.ok (c', c.render_task_data.length) ∧
        c'.render_task_data = c.render_task_data ++ [task.write_task_data] ∧
        c'.lookupDynamic (key, pass) =
          some ⟨c.render_task_data.length, ⟨origin, size⟩⟩) := by
  refine ⟨?_, ?_, ?_, ?_⟩
  · intro hdup
    refine ⟨"debug assertion failed: dynamic task key inserted twice", ?_⟩
    simp [RenderTaskCollection.add, hid, hdup]
  · intro hfresh hloc
    refine ⟨"Dynamic tasks should not have fixed locations!", ?_⟩
    simp [RenderTaskCollection.add, hid, hfresh, hloc]
  · intro size hfresh hloc
    refine ⟨"Expect the task to be already allocated here", ?_⟩
    simp [RenderTaskCollection.add, hid, hfresh, hloc]
  · intro origin target_index size hfresh hloc
    refine ⟨⟨c.render_task_data ++ [task.write_task_data],
        ((key, pass), ⟨c.render_task_data.length, ⟨origin, size⟩⟩) :: c.dynamic_tasks⟩,
      ?_, rfl, ?_⟩
    · simp [RenderTaskCollection.add, hid, hfresh, hloc]
    · simp [RenderTaskCollection.lookupDynamic]

/-- A concrete fresh dynamic task used by the claim C3 witness. -/
def c3Task : RenderTask :=
  { id := RenderTaskId.Dynamic ⟨5⟩,
    location := RenderTaskLocation.Dynamic (some (⟨8, 9⟩, 0)) ⟨32, 16⟩,
    kind := RenderTaskKind.CachePrimitive 0,
    task_data := ⟨[1, 2]⟩ }

/-- Claim C3 witness: adding the concrete fresh dynamic task to an empty
collection through the theorem. -/
theorem claim_C3_witness :
    c3Task.id = RenderTaskId.Dynamic ⟨5⟩ ∧
    ((RenderTaskCollection.new 0).lookupDynamic (⟨5⟩, 2)).isSome = false ∧
    c3Task.location = RenderTaskLocation.Dynamic (some (⟨8, 9⟩, 0)) ⟨32, 16⟩ ∧
    ∃ c', (RenderTaskCollection.new 0).add c3Task 2 = Except.ok (c', 0) ∧
      c'.render_task_data = [⟨[1, 2]⟩] ∧
      c'.lookupDynamic (⟨5⟩, 2) = some ⟨0, ⟨⟨8, 9⟩, ⟨32, 16⟩⟩⟩ := by
  refine ⟨rfl, rfl, rfl, ?_⟩
  exact (claim_C3_add_dynamic (RenderTaskCollection.new 0) c3Task 2 ⟨5⟩ rfl).2.2.2
    ⟨8, 9⟩ 0 ⟨32, 16⟩ rfl rfl

/-! ## Claim C4 -/

/-- Helper: appending one element after `dropLast` of a nonempty list keeps
its length. -/
theorem dropLast_concat_length {T : Type} (xs : List T) (t : T) (x : T)
    (hlast : xs.getLast? = some t) : (xs.dropLast ++ [x]).length = xs.length := by
  have hne : xs ≠ [] := by
    intro hn
    rw [hn] at hlast
    simp at hlast
  have hpos : 0 < xs.length := List.length_pos.mpr hne
  rw [List.length_append, List.length_dropLast]
  simp
  omega

/-- Helper: the computation of `RenderTargetList.allocate` when the last
target exists and accepts the allocation. -/
theorem allocate_last_some {T : Type} (ops : RenderTargetOps T)
    (l : RenderTargetList T) (alloc_size : DeviceUintSize)
    (target target' : T) (origin : DeviceUintPoint)
    (hlast : l.targets.getLast? = some target)
    (hfirst : ops.allocate target alloc_size = (some origin, target')) :
    RenderTargetList.allocate ops l alloc_size =
      Except.ok (origin, l.targets.length - 1,
        { l with targets := l.targets.dropLast ++ [target'] }) := by
  have hdrop := dropLast_concat_length l.targets target target' hlast
  simp [RenderTargetList.allocate, hlast, hfirst, hdrop]

/-- Helper: the computation of `RenderTargetList.allocate` when the first
attempt fails (no last target, or the last target rejects the size). -/
theorem allocate_fallback {T : Type} (ops : RenderTargetOps T)
    (l : RenderTargetList T) (alloc_size : DeviceUintSize)
    (carried : List T)
    (hcarried : (match l.targets.getLast? with
      | none => l.targets = [] ∧ carried = []
      | some target => ∃ target', ops.allocate target alloc_size = (none, target') ∧
          carried = l.targets.dropLast ++ [target'] ∧ carried.length = l.targets.length)) :
    RenderTargetList.allocate ops l alloc_size =
      (match ops.allocate (ops.renew l.target_size) alloc_size with
       | (none, _) => Except.error "Each render task must allocate <= size of one target!"
       | (some origin, tnew) =>
         Except.ok (origin, (carried ++ [tnew]).length - 1,
           { l with targets := carried ++ [tnew] })) := by
  rcases hlastc : l.targets.getLast? with _ | target
  · rw [hlastc] at hcarried
    obtain ⟨hnil, hc⟩ := hcarried
    subst hc
    rcases hfresh : ops.allocate (ops.renew l.target_size) alloc_size with ⟨o, tnew⟩
    cases o with
    | none => simp [RenderTargetList.allocate, hlastc, hfresh]
    | some origin => simp [RenderTargetList.allocate, hlastc, hfresh, hnil]
  · rw [hlastc] at hcarried
    obtain ⟨target', hfirst, hc, hclen⟩ := hcarried
    subst hc
    rcases hfresh : ops.allocate (ops.renew l.target_size) alloc_size with ⟨o, tnew⟩
    cases o with
    | none => simp [RenderTargetList.allocate, hlastc, hfirst, hfresh]
    | some origin => simp [RenderTargetList.allocate, hlastc, hfirst, hfresh]

/-- Claim C4: `RenderTargetList::allocate` first tries the last target; when
the last target succeeds nothing is appended and the returned index is that
of the last target. When the last target fails (or the list is empty) it
appends exactly one new target created at the uniform `target_size`,
allocates from it — aborting only when even that fresh target cannot fit —
and returns the origin with the index of the (new) last target. On any
success the returned index is the last index and the target-list length
never decreases. -/
theorem claim_C4_target_list_allocate {T : Type} (ops : RenderTargetOps T)
    (l : RenderTargetList T) (alloc_size : DeviceUintSize) :
    (∀ origin index l',
      RenderTargetList.allocate ops l alloc_size = Except.ok (origin, index, l') →
      index = l'.targets.length - 1 ∧
      l.targets.length ≤ l'.targets.length ∧
      l'.targets.length ≤ l.targets.length + 1 ∧
      l'.target_size = l.target_size) ∧
    (∀ target origin target',
      l.targets.getLast? = some target →
      ops.allocate target alloc_size = (some origin, target') →
      RenderTargetList.allocate ops l alloc_size =
        Except.ok (origin, l.targets.length - 1,
          { l with targets := l.targets.dropLast ++ [target'] })) ∧
    ((l.targets = [] ∨
      ∃ target target', l.targets.getLast? = some target ∧
        ops.allocate target alloc_size = (none, target')) →
      ((ops.allocate (ops.renew l.target_size) alloc_size).1 = none →
        ∃ e, RenderTargetList.allocate ops l alloc_size = Except.error e) ∧
      (∀ origin, (ops.allocate (ops.renew l.target_size) alloc_size).1 = some origin →
        ∃ l', RenderTargetList.allocate ops l alloc_size =
            Except.ok (origin, l.targets.length, l') ∧
          l'.targets.length = l.targets.length + 1 ∧
          l'.targets.getLast? =
            some (ops.allocate (ops.renew l.target_size) alloc_size).2 ∧
          l'.target_size = l.target_size)) := by
  have carriedOf : (l.targets = [] ∨
      ∃ target target', l.targets.getLast? = some target ∧
        ops.allocate target alloc_size = (none, target')) →
      ∃ carried : List T, carried.length = l.targets.length ∧
        (match l.targets.getLast? with
         | none => l.targets = [] ∧ carried = []
         | some target => ∃ target', ops.allocate target alloc_size = (none, target') ∧
             carried = l.targets.dropLast ++ [target'] ∧
             carried.length = l.targets.length) := by
    intro hfail
    rcases hfail with hnil | ⟨target, target', hlast, hfirst⟩
    · refine ⟨[], by simp [hnil], ?_⟩
      rw [hnil]
      simp
    · refine ⟨l.targets.dropLast ++ [target'], ?_, ?_⟩
      · exact dropLast_concat_length l.targets target target' hlast
      · rw [hlast]
        exact ⟨target', hfirst, rfl, dropLast_concat_length l.targets target target' hlast⟩
  refine ⟨?_, ?_, ?_⟩
  · intro origin index l' h
    rcases hlast : l.targets.getLast? with _ | target
    · have hnil : l.targets = [] := List.getLast?_eq_none_iff.mp hlast
      have := allocate_fallback ops l alloc_size []
        (by rw [hlast]; exact ⟨hnil, rfl⟩)
      rw [this] at h
      rcases hfresh : ops.allocate (ops.renew l.target_size) alloc_size with ⟨o, tnew⟩
      rw [hfresh] at h
      cases o with
      | none => simp at h
      | some o2 =>
        simp only [Except.ok.injEq, Prod.mk.injEq] at h
        obtain ⟨ho, hi, hl⟩ := h
        subst hi hl
        simp [hnil]
    · rcases hfirst : ops.allocate target alloc_size with ⟨o1, t1⟩
      have hdrop := dropLast_concat_length l.targets target t1 hlast
      cases o1 with
      | some origin1 =>
        rw [allocate_last_some ops l alloc_size target t1 origin1 hlast hfirst] at h
        simp only [Except.ok.injEq, Prod.mk.injEq] at h
        obtain ⟨ho, hi, hl⟩ := h
        subst hi hl
        refine ⟨by simp [hdrop], by simp [hdrop], by simp [hdrop], rfl⟩
      | none =>
        have := allocate_fallback ops l alloc_size (l.targets.dropLast ++ [t1])
          (by rw [hlast]; exact ⟨t1, hfirst, rfl, hdrop⟩)
        rw [this] at h
        rcases hfresh : ops.allocate (ops.renew l.target_size) alloc_size with ⟨o, tnew⟩
        rw [hfresh] at h
        cases o with
        | none => simp at h
        | some o2 =>
          simp only [Except.ok.injEq, Prod.mk.injEq] at h
          obtain ⟨ho, hi, hl⟩ := h
          subst hi hl
          have hd2 : l.targets.dropLast.length + 1 = l.targets.length := by
            simpa using hdrop
          refine ⟨by simp, ?_, ?_, rfl⟩ <;> simp <;> omega
  · intro target origin target' hlast hfirst
    exact allocate_last_some ops l alloc_size target target' origin hlast hfirst
  · intro hfail
    obtain ⟨carried, hclen, hcarried⟩ := carriedOf hfail
    have hcomp := allocate_fallback ops l alloc_size carried hcarried
    rcases hfresh : ops.allocate (ops.renew l.target_size) alloc_size with ⟨o, tnew⟩
    rw [hfresh] at hcomp
    constructor
    · intro hnone
      have ho : o = none := hnone
      subst ho
      exact ⟨_, hcomp⟩
    · intro origin hsome
      have ho : o = some origin := hsome
      subst ho
      refine ⟨{ l with targets := carried ++ [tnew] }, ?_, ?_, ?_, rfl⟩
      · rw [hcomp]
        simp [hclen]
      · simp [hclen]
      · simp

/-- A concrete target implementation for the claim C4 witness: targets are
counters; an empty (zero) target accepts one allocation at the origin. -/
def c4Ops : RenderTargetOps Nat :=
  { renew := fun _ => 0,
    allocate := fun t _ => if t = 0 then (some ⟨0, 0⟩, 1) else (none, t),
    add_task := fun t _ _ _ _ => t }

/-- The empty render-target list of the claim C4 witness. -/
def c4List : RenderTargetList Nat := { target_size := ⟨64, 64⟩, targets := [] }

/-- Claim C4 witness: allocating from the empty list through the theorem
creates exactly one target and returns index 0. -/
theorem claim_C4_witness :
    (c4List.targets = [] ∨
      ∃ target target', c4List.targets.getLast? = some target ∧
        c4Ops.allocate target ⟨8, 8⟩ = (none, target')) ∧
    (c4Ops.allocate (c4Ops.renew c4List.target_size) ⟨8, 8⟩).1 = some ⟨0, 0⟩ ∧
    ∃ l', RenderTargetList.allocate c4Ops c4List ⟨8, 8⟩ =
        Except.ok (⟨0, 0⟩, c4List.targets.length, l') ∧
      l'.targets.length = c4List.targets.length + 1 ∧
      l'.targets.getLast? = some (c4Ops.allocate (c4Ops.renew c4List.target_size) ⟨8, 8⟩).2 ∧
      l'.target_size = c4List.target_size := by
  refine ⟨Or.inl rfl, rfl, ?_⟩
  exact ((claim_C4_target_list_allocate c4Ops c4List ⟨8, 8⟩).2.2 (Or.inl rfl)).2 ⟨0, 0⟩ rfl

/-! ## Claim C2 -/

/-- Claim C2: in the task loop of `RenderPass::build`, a task with a
`Dynamic` location and a `Dynamic` id whose `(key, pass)` pair already holds
an allocation of the same size is skipped entirely: the pass state (both
target lists) and the task collection are returned unchanged — no
allocation, no registration, no dispatch — so the first task's recorded rect
stays the one mapped to `(key, pass)`; and when the recorded size differs,
the `debug_assert_eq!` aborts. -/
theorem claim_C2_dynamic_dedup {Tc Ta : Type} (opsC : RenderTargetOps Tc)
    (opsA : RenderTargetOps Ta) (ctx : RenderTargetContext)
    (p : RenderPass Tc Ta) (render_tasks : RenderTaskCollection)
    (task : RenderTask) (key : RenderTaskKey)
    (origin : Option (DeviceIntPoint × RenderTargetIndex)) (size : DeviceIntSize)
    (hloc : task.location = RenderTaskLocation.Dynamic origin size)
    (hid : task.id = RenderTaskId.Dynamic key) :
    (∀ rect, render_tasks.get_dynamic_allocation p.pass_index key = some rect →
      rect.size = size →
      RenderPass.buildStep opsC opsA ctx (p, render_tasks) task =
        Except.ok (p, render_tasks) ∧
      render_tasks.get_dynamic_allocation p.pass_index key = some rect) ∧
    (∀ rect, render_tasks.get_dynamic_allocation p.pass_index key = some rect →
      rect.size ≠ size →
      ∃ e, RenderPass.buildStep opsC opsA ctx (p, render_tasks) task =
        Except.error e) := by
  constructor
  · intro rect halloc hsize
    refine ⟨?_, halloc⟩
    rw [RenderPass.buildStep]
    simp only [hloc, hid, halloc, hsize]
    simp
  · intro rect halloc hsize
    refine ⟨"debug assertion failed: allocated size differs", ?_⟩
    rw [RenderPass.buildStep]
    simp only [hloc, hid, halloc]
    simp [hsize]

/-- The duplicate dynamic task of the claim C2 witness. -/
def c2Task : RenderTask :=
  { id := RenderTaskId.Dynamic ⟨5⟩,
    location := RenderTaskLocation.Dynamic none ⟨32, 16⟩,
    kind := RenderTaskKind.CachePrimitive 3,
    task_data := ⟨[7]⟩ }

/-- The collection of the claim C2 witness, already holding an allocation
for key 5 in pass 1 with the same size. -/
def c2Collection : RenderTaskCollection :=
  { render_task_data := [⟨[0]⟩],
    dynamic_tasks := [((⟨5⟩, 1), ⟨0, ⟨⟨2, 3⟩, ⟨32, 16⟩⟩⟩)] }

/-- The pass of the claim C2 witness (pass index 1, no targets needed). -/
def c2Pass : RenderPass Nat Nat :=
  { pass_index := 1, is_framebuffer := false, tasks := [],
    color_targets := { target_size := ⟨64, 64⟩, targets := [] },
    alpha_targets := { target_size := ⟨64, 64⟩, targets := [] } }

/-- The trivial target operations of the claim C2 witness. -/
def c2Ops : RenderTargetOps Nat :=
  { renew := fun _ => 0,
    allocate := fun t _ => (none, t),
    add_task := fun t _ _ _ _ => t }

/-- The context of the claim C2 witness (everything empty). -/
def c2Ctx : RenderTargetContext :=
  { stacking_context_store := [], clip_scroll_group_store := [],
    prim_store := { cpu_metadata := [], cpu_text_runs := [], cpu_images := [],
                    cpu_yuv_images := [], cpu_bounding_rects := [] },
    resource_cache := { cached_texture := fun _ => SourceTexture.Invalid } }

/-- Claim C2 witness: the duplicate task is skipped and the state is
unchanged, evaluated through the theorem. -/
theorem claim_C2_witness :
    c2Task.location = RenderTaskLocation.Dynamic none ⟨32, 16⟩ ∧
    c2Task.id = RenderTaskId.Dynamic ⟨5⟩ ∧
    c2Collection.get_dynamic_allocation c2Pass.pass_index ⟨5⟩ =
      some ⟨⟨2, 3⟩, ⟨32, 16⟩⟩ ∧
    (⟨⟨2, 3⟩, ⟨32, 16⟩⟩ : DeviceIntRect).size = (⟨32, 16⟩ : DeviceIntSize) ∧
    RenderPass.buildStep c2Ops c2Ops c2Ctx (c2Pass, c2Collection) c2Task =
      Except.ok (c2Pass, c2Collection) := by
  refine ⟨rfl, rfl, rfl, rfl, ?_⟩
  exact ((claim_C2_dynamic_dedup c2Ops c2Ops c2Ctx c2Pass c2Collection c2Task ⟨5⟩
    none ⟨32, 16⟩ rfl rfl).1 ⟨⟨2, 3⟩, ⟨32, 16⟩⟩ rfl rfl).1

/-! ## Claim C7 -/

/-- Specification-side description (following the spec's words) of the
rectangle instances one `(layer, mask_info)` clip entry emits: per effective
clip, one `All`-segment instance for `Default` geometry, or the four corner
instances in the order top-left, top-right, bottom-left, bottom-right for
`CornersOnly`; every instance is addressed at
`clip_range.start + clip_index * CLIP_DATA_GPU_SIZE`. -/
def clipEntryRectsSpec (task_index : RenderTaskIndex) (geometry_kind : MaskGeometryKind)
    (entry : Nat × MaskCacheInfo) : List CacheClipInstance :=
  (List.range entry.2.effective_clip_count).flatMap (fun clip_index =>
    let offset := entry.2.clip_range.start.addr + ((CLIP_DATA_GPU_SIZE * clip_index : Nat) : Int)
    match geometry_kind with
    | MaskGeometryKind.Default =>
      [⟨(task_index : Int), (entry.1 : Int), ⟨offset⟩, MaskSegment.All.toInt⟩]
    | MaskGeometryKind.CornersOnly =>
      [⟨(task_index : Int), (entry.1 : Int), ⟨offset⟩, MaskSegment.TopLeftCorner.toInt⟩,
       ⟨(task_index : Int), (entry.1 : Int), ⟨offset⟩, MaskSegment.TopRightCorner.toInt⟩,
       ⟨(task_index : Int), (entry.1 : Int), ⟨offset⟩, MaskSegment.BottomLeftCorner.toInt⟩,
       ⟨(task_index : Int), (entry.1 : Int), ⟨offset⟩, MaskSegment.BottomRightCorner.toInt⟩])

/-- Specification-side description of the image instance a clip entry
contributes to the bucket of texture `t`: present exactly when the entry
carries an image mask resolving to `t`, and carrying the image's own
address. -/
def clipEntryImageSpec (task_index : RenderTaskIndex) (resource_cache : ResourceCache)
    (t : SourceTexture) (entry : Nat × MaskCacheInfo) : Option CacheClipInstance :=
  match entry.2.image with
  | some (mask, address) =>
    if resource_cache.cached_texture mask.image = t then
      some ⟨(task_index : Int), (entry.1 : Int), address, 0⟩
    else none
  | none => none

/-- Helper: one step of the per-clip rectangle loop only appends. -/
theorem clipRectanglesStep_append (inst : CacheClipInstance) (info : MaskCacheInfo)
    (geometry_kind : MaskGeometryKind) (rects : List CacheClipInstance) (i : Nat) :
    clipRectanglesStep inst info geometry_kind rects i =
      rects ++ clipRectanglesStep inst info geometry_kind [] i := by
  cases geometry_kind <;> simp [clipRectanglesStep]

/-- Helper: a fold whose step appends a per-element list is the initial
accumulator followed by the concatenation of those lists. -/
theorem foldl_append_bind {α β : Type} (f : α → List β)
    (step : List β → α → List β)
    (hstep : ∀ acc a, step acc a = acc ++ f a) :
    ∀ (l : List α) (acc : List β), l.foldl step acc = acc ++ l.flatMap f := by
  intro l
  induction l with
  | nil => intro acc; simp
  | cons a rest ih =>
    intro acc
    rw [List.foldl_cons, hstep, ih, List.flatMap_cons, List.append_assoc]

/-- Helper: the rectangles accumulated by one clip entry are the entry's
spec rectangles appended. -/
theorem addEntry_rectangles (task_index : RenderTaskIndex)
    (resource_cache : ResourceCache) (geometry_kind : MaskGeometryKind)
    (cb : ClipBatcher) (entry : Nat × MaskCacheInfo) :
    (ClipBatcher.addEntry task_index resource_cache geometry_kind cb entry).rectangles =
      cb.rectangles ++ clipEntryRectsSpec task_index geometry_kind entry := by
  have hfold := foldl_append_bind
    (clipRectanglesStep
      ⟨(task_index : Int), (entry.1 : Int), ⟨0⟩, 0⟩ entry.2 geometry_kind [])
    (clipRectanglesStep
      ⟨(task_index : Int), (entry.1 : Int), ⟨0⟩, 0⟩ entry.2 geometry_kind)
    (clipRectanglesStep_append _ _ _)
    (List.range entry.2.effective_clip_count) cb.rectangles
  have hspec : clipEntryRectsSpec task_index geometry_kind entry =
      (List.range entry.2.effective_clip_count).flatMap
        (clipRectanglesStep
          ⟨(task_index : Int), (entry.1 : Int), ⟨0⟩, 0⟩ entry.2 geometry_kind []) := by
    rw [clipEntryRectsSpec]
    congr 1
  rw [hspec]
  rw [ClipBatcher.addEntry]
  cases him : entry.2.image with
  | none => simpa [him] using hfold
  | some pair =>
    rcases pair with ⟨mask, address⟩
    simpa [him] using hfold

/-- Helper: the image buckets after one clip entry. -/
theorem addEntry_images (task_index : RenderTaskIndex)
    (resource_cache : ResourceCache) (geometry_kind : MaskGeometryKind)
    (cb : ClipBatcher) (entry : Nat × MaskCacheInfo) (t : SourceTexture) :
    (ClipBatcher.addEntry task_index resource_cache geometry_kind cb entry).images t =
      cb.images t ++ (clipEntryImageSpec task_index resource_cache t entry).toList := by
  rw [ClipBatcher.addEntry, clipEntryImageSpec]
  cases him : entry.2.image with
  | none => simp [him]
  | some pair =>
    rcases pair with ⟨mask, address⟩
    simp only [him]
    by_cases ht : resource_cache.cached_texture mask.image = t
    · simp [ht]
    · simp [ht]
      intro h
      exact absurd h.symm ht

/-- Claim C7: `ClipBatcher::add` appends, for each `(layer, mask_info)` clip
entry and each of its `effective_clip_count` clips, exactly one
`All`-segment rectangle instance under `Default` geometry and exactly the
four corner instances (top-left, top-right, bottom-left, bottom-right, in
that order) under `CornersOnly`, each addressed at
`clip_range.start + clip_index * CLIP_DATA_GPU_SIZE`; and when the entry
carries an image mask, exactly one additional instance (at the image's
address) is appended to the bucket of the image's resolved texture. -/
theorem claim_C7_clip_batcher (cb : ClipBatcher) (task_index : RenderTaskIndex)
    (clips : List (Nat × MaskCacheInfo)) (resource_cache : ResourceCache)
    (geometry_kind : MaskGeometryKind) :
    (ClipBatcher.add cb task_index clips resource_cache geometry_kind).rectangles =
      cb.rectangles ++ clips.flatMap (clipEntryRectsSpec task_index geometry_kind) ∧
    (∀ t, (ClipBatcher.add cb task_index clips resource_cache geometry_kind).images t =
      cb.images t ++ clips.filterMap (clipEntryImageSpec task_index resource_cache t)) := by
  induction clips generalizing cb with
  | nil => simp [ClipBatcher.add]
  | cons entry rest ih =>
    have hstep := ih (ClipBatcher.addEntry task_index resource_cache geometry_kind cb entry)
    constructor
    · rw [ClipBatcher.add, List.foldl_cons]
      rw [show (rest.foldl (ClipBatcher.addEntry task_index resource_cache geometry_kind)
          (ClipBatcher.addEntry task_index resource_cache geometry_kind cb entry)) =
          ClipBatcher.add (ClipBatcher.addEntry task_index resource_cache geometry_kind cb entry)
            task_index rest resource_cache geometry_kind from rfl]
      rw [hstep.1, addEntry_rectangles, List.flatMap_cons, List.append_assoc]
    · intro t
      rw [ClipBatcher.add, List.foldl_cons]
      rw [show (rest.foldl (ClipBatcher.addEntry task_index resource_cache geometry_kind)
          (ClipBatcher.addEntry task_index resource_cache geometry_kind cb entry)) =
          ClipBatcher.add (ClipBatcher.addEntry task_index resource_cache geometry_kind cb entry)
            task_index rest resource_cache geometry_kind from rfl]
      rw [hstep.2 t, addEntry_images]
      rw [List.filterMap_cons]
      cases clipEntryImageSpec task_index resource_cache t entry with
      | none => simp
      | some v => simp

/-! ## Claim C8 -/

/-- Helper: every instance row produced by `addPrimInstances` carries the
`clip_task_index` value it was handed. -/
theorem addPrimInstances_clip_task_index (s : PrimitiveStore)
    (metadata : PrimitiveMetadata) (batch_kind : AlphaBatchKind)
    (render_tasks : RenderTaskCollection) (child_pass_index : RenderPassIndex)
    (global_prim_id : Int) (prim_address : GpuStoreAddress)
    (task_index clip_task_index packed_layer_index z_sort_index : Int)
    (lst : List PrimitiveInstance)
    (h : addPrimInstances s metadata batch_kind render_tasks child_pass_index
      global_prim_id prim_address task_index clip_task_index packed_layer_index
      z_sort_index = Except.ok lst) :
    ∀ inst ∈ lst, inst.clip_task_index = clip_task_index := by
  intro inst hmem
  cases batch_kind <;> simp only [addPrimInstances] at h <;> repeat' split at h
  all_goals try exact Except.noConfusion h
  all_goals injection h with h
  all_goals subst h
  all_goals simp only [List.mem_singleton, List.mem_map, List.mem_range] at hmem
  all_goals first
    | (subst hmem; rfl)
    | (obtain ⟨i, hi, hinst⟩ := hmem; subst hinst; rfl)

/-- Claim C8: sentinel correctness of the emitted `PrimitiveInstance` rows —
every row `add_prim_to_batch` emits for a primitive without a clip task has
`clip_task_index = OPAQUE_TASK_INDEX`; every row emitted by
`add_blend_to_batch`, `add_hardware_composite_to_batch` and
`new_composite` has `global_prim_id = -1` and `layer_index = -1`. -/
theorem claim_C8_sentinels :
    (∀ (s : PrimitiveStore) (prim_index : Nat) (batch : PrimitiveBatch)
       (packed_layer_index : Nat) (task_index : RenderTaskIndex)
       (render_tasks : RenderTaskCollection) (child_pass_index : RenderPassIndex)
       (z : Int) (metadata : PrimitiveMetadata) (batch' : PrimitiveBatch),
      s.get_metadata prim_index = Except.ok metadata →
      metadata.clip_task = none →
      s.add_prim_to_batch prim_index batch packed_layer_index task_index
        render_tasks child_pass_index z = Except.ok batch' →
      ∀ inst ∈ batch'.instances, inst ∈ batch.instances ∨
        inst.clip_task_index = ((OPAQUE_TASK_INDEX : Nat) : Int)) ∧
    (∀ (s : PrimitiveStore) (stacking_context_index : Nat) (batch : PrimitiveBatch)
       (task_index src_task_index : RenderTaskIndex) (filter : LowLevelFilterOp)
       (z : Int) (batch' : PrimitiveBatch),
      s.add_blend_to_batch stacking_context_index batch task_index src_task_index
        filter z = Except.ok batch' →
      ∀ inst ∈ batch'.instances, inst ∈ batch.instances ∨
        (inst.global_prim_id = -1 ∧ inst.layer_index = -1)) ∧
    (∀ (s : PrimitiveStore) (stacking_context_index : Nat) (batch : PrimitiveBatch)
       (task_index src_task_index : RenderTaskIndex) (z : Int) (batch' : PrimitiveBatch),
      s.add_hardware_composite_to_batch stacking_context_index batch task_index
        src_task_index z = Except.ok batch' →
      ∀ inst ∈ batch'.instances, inst ∈ batch.instances ∨
        (inst.global_prim_id = -1 ∧ inst.layer_index = -1)) ∧
    (∀ (stacking_context_index : Nat) (task_index backdrop_task src_task_index : RenderTaskIndex)
       (mode : MixBlendMode) (z : Int),
      ∀ inst ∈ (PrimitiveBatch.new_composite stacking_context_index task_index
        backdrop_task src_task_index mode z).instances,
        inst.global_prim_id = -1 ∧ inst.layer_index = -1) := by
  refine ⟨?_, ?_, ?_, ?_⟩
  · intro s prim_index batch packed_layer_index task_index render_tasks child_pass_index z
      metadata batch' hmeta hclip h inst hmem
    rw [PrimitiveStore.add_prim_to_batch, hmeta] at h
    simp only [hclip] at h
    split at h
    · exact Except.noConfusion h
    · rename_i data hdata
      split at h
      · exact Except.noConfusion h
      · rename_i newInstances hinsts
        injection h with h
        subst h
        simp only [PrimitiveBatch.instances, hdata] at hmem ⊢
        rcases List.mem_append.mp hmem with hold | hnew
        · exact Or.inl hold
        · exact Or.inr (addPrimInstances_clip_task_index _ _ _ _ _ _ _ _ _ _ _ _ hinsts inst hnew)
  · intro s stacking_context_index batch task_index src_task_index filter z batch' h inst hmem
    rw [PrimitiveStore.add_blend_to_batch] at h
    split at h
    · rename_i data hdata
      have hdata2 : batch.data = PrimitiveBatchData.Instances data := hdata
      injection h with h
      subst h
      simp only [PrimitiveBatch.instances, hdata2] at hmem ⊢
      rcases List.mem_append.mp hmem with hold | hnew
      · exact Or.inl hold
      · simp only [List.mem_singleton] at hnew
        subst hnew
        exact Or.inr ⟨rfl, rfl⟩
    · exact Except.noConfusion h
  · intro s stacking_context_index batch task_index src_task_index z batch' h inst hmem
    rw [PrimitiveStore.add_hardware_composite_to_batch] at h
    split at h
    · rename_i data hdata
      have hdata2 : batch.data = PrimitiveBatchData.Instances data := hdata
      injection h with h
      subst h
      simp only [PrimitiveBatch.instances, hdata2] at hmem ⊢
      rcases List.mem_append.mp hmem with hold | hnew
      · exact Or.inl hold
      · simp only [List.mem_singleton] at hnew
        subst hnew
        exact Or.inr ⟨rfl, rfl⟩
    · exact Except.noConfusion h
  · intro stacking_context_index task_index backdrop_task src_task_index mode z inst hmem
    simp only [PrimitiveBatch.new_composite, PrimitiveBatch.instances,
      List.mem_singleton] at hmem
    subst hmem
    exact ⟨rfl, rfl⟩

/-- The empty primitive store of the claim C8 witness. -/
def c8Store : PrimitiveStore :=
  { cpu_metadata := [], cpu_text_runs := [], cpu_images := [],
    cpu_yuv_images := [], cpu_bounding_rects := [] }

/-- The empty blend batch of the claim C8 witness. -/
def c8Batch : PrimitiveBatch :=
  { key := AlphaBatchKey.new AlphaBatchKind.Blend AlphaBatchKeyFlags.empty
      BlendMode.Alpha BatchTextures.no_texture,
    data := PrimitiveBatchData.Instances [],
    items := [] }

/-- Claim C8 witness: a concrete blend row goes through the theorem and
carries the `-1` sentinels. -/
theorem claim_C8_witness :
    ∃ batch', c8Store.add_blend_to_batch 0 c8Batch 1 2 (LowLevelFilterOp.Opacity 60) 3 =
        Except.ok batch' ∧
      ∀ inst ∈ batch'.instances, inst ∈ c8Batch.instances ∨
        (inst.global_prim_id = -1 ∧ inst.layer_index = -1) := by
  refine ⟨_, rfl, ?_⟩
  exact claim_C8_sentinels.2.1 c8Store 0 c8Batch 1 2 (LowLevelFilterOp.Opacity 60) 3 _ rfl

/-! ## Claim C1 -/

/-- Helper: characterisation of the labelled scan over an arbitrary indexed
batch list — it yields `some i` exactly when some position `k` holds `(i, b)`
with a compatible key and every earlier-scanned position is incompatible and
intersection-free. -/
theorem mergeScan_eq_some_iff (ctx : RenderTargetContext) (batch_key : AlphaBatchKey)
    (item_bounding_rect : DeviceIntRect) (L : List (Nat × PrimitiveBatch))
    (hres : ∀ p ∈ L, ∃ r, anyItemIntersects ctx item_bounding_rect p.2.items = Except.ok r)
    (i : Nat) :
    mergeScan ctx batch_key item_bounding_rect L = Except.ok (some i) ↔
      ∃ (k : Nat) (b : PrimitiveBatch),
        L[k]? = some (i, b) ∧ b.key.is_compatible_with batch_key = true ∧
        ∀ m, m < k → ∀ q : Nat × PrimitiveBatch, L[m]? = some q →
          q.2.key.is_compatible_with batch_key = false ∧
          anyItemIntersects ctx item_bounding_rect q.2.items = Except.ok false := by
  induction L with
  | nil =>
    simp [mergeScan]
  | cons hd tl ih =>
    rcases hd with ⟨j, c⟩
    by_cases hc : c.key.is_compatible_with batch_key = true
    · have hred : mergeScan ctx batch_key item_bounding_rect ((j, c) :: tl) =
          Except.ok (some j) := by
        rw [mergeScan, if_pos hc]
      rw [hred]
      constructor
      · intro h
        injection h with h
        injection h with h
        subst h
        exact ⟨0, c, by simp, hc, fun m hm q hq => absurd hm (Nat.not_lt_zero m)⟩
      · rintro ⟨k, b, hk, hbc, hmins⟩
        cases k with
        | zero =>
          rw [List.getElem?_cons_zero] at hk
          injection hk with hk
          injection hk with hk1 hk2
          rw [hk1]
        | succ k' =>
          have := (hmins 0 (Nat.succ_pos k') (j, c) (by simp)).1
          rw [hc] at this
          exact Bool.noConfusion this
    · have hcf : c.key.is_compatible_with batch_key = false := by
        simpa using hc
      obtain ⟨r, hr⟩ := hres (j, c) (List.mem_cons_self _ _)
      cases r with
      | true =>
        have hred : mergeScan ctx batch_key item_bounding_rect ((j, c) :: tl) =
            Except.ok none := by
          rw [mergeScan, if_neg hc]
          simp [hr]
        rw [hred]
        constructor
        · intro h
          injection h with h
          exact Option.noConfusion h
        · rintro ⟨k, b, hk, hbc, hmins⟩
          cases k with
          | zero =>
            rw [List.getElem?_cons_zero] at hk
            injection hk with hk
            injection hk with hk1 hk2
            rw [← hk2] at hbc
            rw [hcf] at hbc
            exact Bool.noConfusion hbc
          | succ k' =>
            have := (hmins 0 (Nat.succ_pos k') (j, c) (by simp)).2
            rw [hr] at this
            injection this with this
            exact Bool.noConfusion this
      | false =>
        have hred : mergeScan ctx batch_key item_bounding_rect ((j, c) :: tl) =
            mergeScan ctx batch_key item_bounding_rect tl := by
          rw [mergeScan, if_neg hc]
          simp [hr]
        rw [hred, ih (fun p hp => hres p (List.mem_cons_of_mem _ hp))]
        constructor
        · rintro ⟨k, b, hk, hbc, hmins⟩
          refine ⟨k + 1, b, by simpa using hk, hbc, ?_⟩
          intro m hm q hq
          cases m with
          | zero =>
            rw [List.getElem?_cons_zero] at hq
            injection hq with hq
            subst hq
            exact ⟨hcf, hr⟩
          | succ m' =>
            exact hmins m' (Nat.lt_of_succ_lt_succ hm) q (by simpa using hq)
        · rintro ⟨k, b, hk, hbc, hmins⟩
          cases k with
          | zero =>
            rw [List.getElem?_cons_zero] at hk
            injection hk with hk
            injection hk with hk1 hk2
            rw [← hk2] at hbc
            rw [hcf] at hbc
            exact Bool.noConfusion hbc
          | succ k' =>
            refine ⟨k', b, by simpa using hk, hbc, ?_⟩
            intro m hm q hq
            exact hmins (m + 1) (Nat.succ_lt_succ hm) q (by simpa using hq)

/-- Helper: indexing into `alpha_batches.iter().enumerate().rev().take(10)` —
scan position `k` holds the batch at original index `length - 1 - k`, for
`k` below both 10 and the batch count. -/
theorem scanList_getElem? (batches : List PrimitiveBatch) (k : Nat) :
    (batches.enum.reverse.take 10)[k]? =
      if k < 10 ∧ k < batches.length then
        (batches[batches.length - 1 - k]?).map
          (fun b => (batches.length - 1 - k, b))
      else none := by
  by_cases h10 : k < 10
  · rw [List.getElem?_take, if_pos h10]
    by_cases hk : k < batches.length
    · have hlen : k < batches.enum.length := by
        simpa [List.enum_length] using hk
      rw [List.getElem?_reverse hlen]
      rw [List.enum_length]
      rw [show batches.enum = batches.enumFrom 0 from rfl, List.getElem?_enumFrom]
      rw [if_pos ⟨h10, hk⟩]
      simp
    · have hge : batches.enum.reverse.length ≤ k := by
        simp only [List.length_reverse, List.enum_length]
        omega
      rw [List.getElem?_eq_none hge, if_neg (by omega)]
  · rw [List.getElem?_take, if_neg h10, if_neg (by omega)]

/-- Helper: membership in the prepared scan list implies the batch is one of
the original batches. -/
theorem mem_scanList (batches : List PrimitiveBatch) (p : Nat × PrimitiveBatch)
    (hp : p ∈ batches.enum.reverse.take 10) : p.2 ∈ batches := by
  obtain ⟨k, hk⟩ := List.mem_iff_getElem?.mp hp
  rw [scanList_getElem? batches k] at hk
  by_cases hcond : k < 10 ∧ k < batches.length
  · rw [if_pos hcond] at hk
    rcases hmap : batches[batches.length - 1 - k]? with _ | b
    · rw [hmap] at hk
      exact Option.noConfusion hk
    · rw [hmap] at hk
      injection hk with hk
      have hb : b ∈ batches := List.getElem?_mem hmap
      rw [← hk]
      exact hb
  · rw [if_neg hcond] at hk
    exact Option.noConfusion hk

/-- Helper: full characterisation of the merge search of
`AlphaBatcher::build` in terms of the original batch list. -/
theorem findMergeIndex_some_iff (ctx : RenderTargetContext) (batch_key : AlphaBatchKey)
    (item_bounding_rect : DeviceIntRect) (batches : List PrimitiveBatch)
    (hres : ∀ b ∈ batches, ∃ r, anyItemIntersects ctx item_bounding_rect b.items = Except.ok r)
    (i : Nat) :
    findMergeIndex ctx batch_key item_bounding_rect batches = Except.ok (some i) ↔
      ∃ h : i < batches.length,
        batches.length ≤ i + 10 ∧
        (batches.get ⟨i, h⟩).key.is_compatible_with batch_key = true ∧
        ∀ j (hj : j < batches.length), i < j →
          (batches.get ⟨j, hj⟩).key.is_compatible_with batch_key = false ∧
          anyItemIntersects ctx item_bounding_rect (batches.get ⟨j, hj⟩).items =
            Except.ok false := by
  rw [findMergeIndex, mergeScan_eq_some_iff ctx batch_key item_bounding_rect _
    (fun p hp => hres p.2 (mem_scanList batches p hp)) i]
  constructor
  · rintro ⟨k, b, hk, hbc, hmins⟩
    rw [scanList_getElem? batches k] at hk
    by_cases hcond : k < 10 ∧ k < batches.length
    · rw [if_pos hcond] at hk
      rcases hmap : batches[batches.length - 1 - k]? with _ | b'
      · rw [hmap] at hk
        exact Option.noConfusion hk
      · rw [hmap] at hk
        injection hk with hk
        injection hk with hki hkb
        obtain ⟨h10, hkn⟩ := hcond
        have hi : i < batches.length := by omega
        refine ⟨hi, by omega, ?_, ?_⟩
        · have : batches[i]? = some b' := by
            rw [hki] at hmap
            exact hmap
          rw [List.getElem?_eq_getElem hi] at this
          injection this with this
          rw [List.get_eq_getElem, this, hkb]
          exact hbc
        · intro j hj hij
          have hm : batches.length - 1 - j < k := by omega
          have hjq : (batches.enum.reverse.take 10)[batches.length - 1 - j]? =
              some (j, batches.get ⟨j, hj⟩) := by
            rw [scanList_getElem? batches (batches.length - 1 - j),
              if_pos (by constructor <;> omega)]
            have hjj : batches.length - 1 - (batches.length - 1 - j) = j := by omega
            rw [hjj, List.getElem?_eq_getElem hj]
            simp
          have := hmins (batches.length - 1 - j) hm (j, batches.get ⟨j, hj⟩) hjq
          exact this
    · rw [if_neg hcond] at hk
      exact Option.noConfusion hk
  · rintro ⟨hi, hwin, hbc, hall⟩
    refine ⟨batches.length - 1 - i, batches.get ⟨i, hi⟩, ?_, ?_, ?_⟩
    · rw [scanList_getElem? batches (batches.length - 1 - i),
        if_pos (by constructor <;> omega)]
      have hii : batches.length - 1 - (batches.length - 1 - i) = i := by omega
      rw [hii, List.getElem?_eq_getElem hi]
      simp
    · exact hbc
    · intro m hm q hq
      rw [scanList_getElem? batches m] at hq
      by_cases hcond : m < 10 ∧ m < batches.length
      · rw [if_pos hcond] at hq
        rcases hmap : batches[batches.length - 1 - m]? with _ | b'
        · rw [hmap] at hq
          exact Option.noConfusion hq
        · rw [hmap] at hq
          injection hq with hq
          have hj : batches.length - 1 - m < batches.length := by omega
          have hij : i < batches.length - 1 - m := by omega
          have hprops := hall (batches.length - 1 - m) hj hij
          rw [List.getElem?_eq_getElem hj] at hmap
          injection hmap with hmap
          rw [← hq]
          rw [List.get_eq_getElem] at hprops
          rw [hmap] at hprops
          exact hprops
      · rw [if_neg hcond] at hq
        exact Option.noConfusion hq

/-- Claim C1: the merge search of `AlphaBatcher::build` for a translucent
non-composite item yields batch index `i` exactly when `i` lies among the 10
most recently created alpha batches (`length ≤ i + 10`), the batch at `i` has
a compatible key, and every batch created after it (scanned before it, in
reverse creation order) is incompatible and holds no item whose device
bounding rect intersects the new item's — so a scanned batch is reused only
when compatible, and an intersecting incompatible batch (or the 10-batch
window, or running out of batches) terminates the scan with no reuse. -/
theorem claim_C1_merge_scan (ctx : RenderTargetContext) (batch_key : AlphaBatchKey)
    (item_bounding_rect : DeviceIntRect) (batches : List PrimitiveBatch)
    (hres : ∀ b ∈ batches, ∃ r, anyItemIntersects ctx item_bounding_rect b.items = Except.ok r)
    (i : Nat) :
    findMergeIndex ctx batch_key item_bounding_rect batches = Except.ok (some i) ↔
      ∃ h : i < batches.length,
        batches.length ≤ i + 10 ∧
        (batches.get ⟨i, h⟩).key.is_compatible_with batch_key = true ∧
        ∀ j (hj : j < batches.length), i < j →
          (batches.get ⟨j, hj⟩).key.is_compatible_with batch_key = false ∧
          anyItemIntersects ctx item_bounding_rect (batches.get ⟨j, hj⟩).items =
            Except.ok false :=
  findMergeIndex_some_iff ctx batch_key item_bounding_rect batches hres i

/-- The batch key of the claim C1 witness. -/
def c1Key : AlphaBatchKey :=
  AlphaBatchKey.new AlphaBatchKind.Rectangle AlphaBatchKeyFlags.empty
    BlendMode.Alpha BatchTextures.no_texture

/-- The single existing batch of the claim C1 witness. -/
def c1Batch : PrimitiveBatch :=
  { key := c1Key, data := PrimitiveBatchData.Instances [], items := [] }

/-- The empty context of the claim C1 witness. -/
def c1Ctx : RenderTargetContext :=
  { stacking_context_store := [], clip_scroll_group_store := [],
    prim_store := { cpu_metadata := [], cpu_text_runs := [], cpu_images := [],
                    cpu_yuv_images := [], cpu_bounding_rects := [] },
    resource_cache := { cached_texture := fun _ => SourceTexture.Invalid } }

/-- Claim C1 witness: with one compatible item-free batch, the scan resolves
everywhere and the theorem yields reuse of batch 0. -/
theorem claim_C1_witness :
    (∀ b ∈ [c1Batch], ∃ r,
      anyItemIntersects c1Ctx ⟨⟨0, 0⟩, ⟨4, 4⟩⟩ b.items = Except.ok r) ∧
    findMergeIndex c1Ctx c1Key ⟨⟨0, 0⟩, ⟨4, 4⟩⟩ [c1Batch] = Except.ok (some 0) := by
  have hres : ∀ b ∈ [c1Batch], ∃ r,
      anyItemIntersects c1Ctx ⟨⟨0, 0⟩, ⟨4, 4⟩⟩ b.items = Except.ok r := by
    intro b hb
    rw [List.mem_singleton] at hb
    subst hb
    exact ⟨false, rfl⟩
  refine ⟨hres, ?_⟩
  rw [claim_C1_merge_scan c1Ctx c1Key ⟨⟨0, 0⟩, ⟨4, 4⟩⟩ [c1Batch] hres 0]
  refine ⟨by decide, by decide, by decide, ?_⟩
  intro j hj hij
  simp only [List.length_singleton] at hj
  omega

/-! ## Claim C6 -/

/-- Helper: compatible keys agree on the batch kind. -/
theorem is_compatible_with_kind_eq {a b : AlphaBatchKey}
    (h : a.is_compatible_with b = true) : a.kind = b.kind := by
  rw [AlphaBatchKey.is_compatible_with] at h
  simp only [Bool.and_eq_true, decide_eq_true_eq] at h
  exact h.1.1.1.1.1

/-- Helper: `get_batch_kind` never yields the `Composite` batch kind. -/
theorem get_batch_kind_ne_composite (s : PrimitiveStore) (metadata : PrimitiveMetadata)
    (k : AlphaBatchKind) (h : s.get_batch_kind metadata = Except.ok k) :
    k ≠ AlphaBatchKind.Composite := by
  intro hk
  subst hk
  cases hpk : metadata.prim_kind <;> rw [PrimitiveStore.get_batch_kind, hpk] at h <;>
    repeat' split at h
  all_goals try exact Except.noConfusion h
  all_goals injection h with h
  all_goals exact AlphaBatchKind.noConfusion h

/-- Helper: the derived key of a non-composite alpha item never has the
`Composite` batch kind. -/
theorem deriveKeyAndRect_kind_ne_composite (ctx : RenderTargetContext)
    (item : AlphaRenderItem) (batch_key : AlphaBatchKey) (rect : DeviceIntRect)
    (h : deriveKeyAndRect ctx item = Except.ok (batch_key, rect)) :
    batch_key.kind ≠ AlphaBatchKind.Composite := by
  cases item with
  | Blend sc src filter z =>
    rw [deriveKeyAndRect] at h
    repeat' split at h
    · exact Except.noConfusion h
    · injection h with h
      injection h with h1 h2
      rw [← h1]
      decide
  | HardwareComposite sc src op z =>
    rw [deriveKeyAndRect] at h
    repeat' split at h
    · exact Except.noConfusion h
    · injection h with h
      injection h with h1 h2
      rw [← h1]
      cases op
      decide
  | Composite sc backdrop src info z =>
    rw [deriveKeyAndRect] at h
    exact Except.noConfusion h
  | Primitive group prim z =>
    rw [deriveKeyAndRect] at h
    dsimp only at h
    repeat' split at h
    all_goals try exact Except.noConfusion h
    all_goals injection h with h
    all_goals injection h with h1 h2
    all_goals rw [← h1]
    all_goals simp only [AlphaBatchKey.new]
    all_goals exact get_batch_kind_ne_composite _ _ _ (by assumption)

/-- Helper: a successful merge scan found an actually scanned, compatible
batch (no resolution hypothesis needed for this direction). -/
theorem mergeScan_some_exists (ctx : RenderTargetContext) (batch_key : AlphaBatchKey)
    (item_bounding_rect : DeviceIntRect) (L : List (Nat × PrimitiveBatch)) (i : Nat)
    (h : mergeScan ctx batch_key item_bounding_rect L = Except.ok (some i)) :
    ∃ (k : Nat) (b : PrimitiveBatch),
      L[k]? = some (i, b) ∧ b.key.is_compatible_with batch_key = true := by
  induction L with
  | nil =>
    rw [mergeScan] at h
    injection h with h
    exact Option.noConfusion h
  | cons hd tl ih =>
    rcases hd with ⟨j, c⟩
    by_cases hc : c.key.is_compatible_with batch_key = true
    · rw [mergeScan, if_pos hc] at h
      injection h with h
      injection h with h
      subst h
      exact ⟨0, c, by simp, hc⟩
    · rw [mergeScan, if_neg hc] at h
      cases hint : anyItemIntersects ctx item_bounding_rect c.items with
      | error e =>
        rw [hint] at h
        exact Except.noConfusion h
      | ok r =>
        rw [hint] at h
        cases r with
        | true =>
          simp only [if_pos rfl] at h
          injection h with h
          exact Option.noConfusion h
        | false =>
          simp only [Bool.false_eq_true, if_false] at h
          obtain ⟨k, b, hk, hb⟩ := ih h
          exact ⟨k + 1, b, by simpa using hk, hb⟩

/-- Helper: a successful merge search names an in-range batch whose key is
compatible with the derived key. -/
theorem findMergeIndex_some_compat (ctx : RenderTargetContext)
    (batch_key : AlphaBatchKey) (item_bounding_rect : DeviceIntRect)
    (batches : List PrimitiveBatch) (i : Nat)
    (h : findMergeIndex ctx batch_key item_bounding_rect batches = Except.ok (some i)) :
    ∃ hi : i < batches.length,
      (batches.get ⟨i, hi⟩).key.is_compatible_with batch_key = true := by
  rw [findMergeIndex] at h
  obtain ⟨k, b, hk, hb⟩ := mergeScan_some_exists _ _ _ _ _ h
  rw [scanList_getElem? batches k] at hk
  by_cases hcond : k < 10 ∧ k < batches.length
  · rw [if_pos hcond] at hk
    rcases hmap : batches[batches.length - 1 - k]? with _ | b'
    · rw [hmap] at hk
      exact Option.noConfusion hk
    · rw [hmap] at hk
      injection hk with hk
      injection hk with hk1 hk2
      have hi : i < batches.length := by omega
      refine ⟨hi, ?_⟩
      rw [hk1] at hmap
      rw [List.getElem?_eq_getElem hi] at hmap
      injection hmap with hmap
      rw [List.get_eq_getElem, hmap, hk2]
      exact hb
  · rw [if_neg hcond] at hk
    exact Option.noConfusion hk

/-- Helper: updating a batch at a different index leaves index `i` intact. -/
theorem set_preserves_getElem? (alpha_batches : List PrimitiveBatch) (idx : Nat)
    (updated : PrimitiveBatch) (i : Nat) (hi : i < alpha_batches.length)
    (hne : idx ≠ i) :
    (alpha_batches.set idx updated)[i]? = some (alpha_batches.get ⟨i, hi⟩) := by
  rw [List.getElem?_set_ne hne, List.getElem?_eq_getElem hi, List.get_eq_getElem]

/-- Helper: appending a fresh batch and updating it leaves every original
index intact. -/
theorem append_set_preserves_getElem? (alpha_batches : List PrimitiveBatch)
    (nb updated : PrimitiveBatch) (i : Nat) (hi : i < alpha_batches.length) :
    ((alpha_batches ++ [nb]).set alpha_batches.length updated)[i]? =
      some (alpha_batches.get ⟨i, hi⟩) := by
  rw [List.getElem?_set_ne (by omega), List.getElem?_append_left hi,
    List.getElem?_eq_getElem hi, List.get_eq_getElem]

/-- Helper: the encode step only rewrites the selected batch index. -/
theorem encodeAlphaItem_shape (ctx : RenderTargetContext)
    (render_tasks : RenderTaskCollection) (child_pass_index : RenderPassIndex)
    (task_index : RenderTaskIndex) (item : AlphaRenderItem)
    (batches : List PrimitiveBatch) (batch_index : Nat)
    (batches' : List PrimitiveBatch)
    (h : encodeAlphaItem ctx render_tasks child_pass_index task_index item
      batches batch_index = Except.ok batches') :
    ∃ updated, batches' = batches.set batch_index updated := by
  rw [encodeAlphaItem] at h
  repeat' split at h
  all_goals try exact Except.noConfusion h
  all_goals injection h with h
  all_goals exact ⟨_, h.symm⟩

/-- Claim C6: in the translucent loop of `AlphaBatcher::build`, a
`Composite` item always appends its own standalone batch (built by
`new_composite`) to the alpha batch list, never merging into an existing
batch and never taking the merge-scan / new-instance-batch path; and no
later item of any kind is ever added to an existing `Composite` batch —
processing any item leaves every existing composite batch untouched. -/
theorem claim_C6_composite_standalone (ctx : RenderTargetContext)
    (render_tasks : RenderTaskCollection) (child_pass_index : RenderPassIndex)
    (task_index : RenderTaskIndex) (alpha_batches : List PrimitiveBatch) :
    (∀ (sc : Nat) (backdrop_id src_id : RenderTaskId) (info : MixBlendMode) (z : Int)
       (backdrop_index src_index : RenderTaskIndex),
      render_tasks.get_task_index backdrop_id child_pass_index = Except.ok backdrop_index →
      render_tasks.get_static_task_index src_id = Except.ok src_index →
      processAlphaItem ctx render_tasks child_pass_index task_index alpha_batches
          (AlphaRenderItem.Composite sc backdrop_id src_id info z) =
        Except.ok (alpha_batches ++
          [PrimitiveBatch.new_composite sc task_index backdrop_index src_index info z])) ∧
    (∀ (item : AlphaRenderItem) (batches' : List PrimitiveBatch),
      processAlphaItem ctx render_tasks child_pass_index task_index alpha_batches item =
        Except.ok batches' →
      ∀ (i : Nat) (hi : i < alpha_batches.length),
        (alpha_batches.get ⟨i, hi⟩).key.kind = AlphaBatchKind.Composite →
        batches'[i]? = some (alpha_batches.get ⟨i, hi⟩)) := by
  constructor
  · intro sc backdrop_id src_id info z backdrop_index src_index h1 h2
    simp only [processAlphaItem, h1, h2]
  · intro item batches' h i hi hkd
    cases item with
    | Composite sc backdrop_id src_id info z =>
      simp only [processAlphaItem] at h
      repeat' split at h
      all_goals try exact Except.noConfusion h
      injection h with h
      subst h
      rw [List.getElem?_append_left hi, List.getElem?_eq_getElem hi, List.get_eq_getElem]
    | Blend sc src_id filter z =>
      simp only [processAlphaItem] at h
      split at h
      · exact Except.noConfusion h
      · split at h
        · exact Except.noConfusion h
        · rename_i x1 batch_key rect hder x2 bidx hfmi
          obtain ⟨updated, hset⟩ := encodeAlphaItem_shape _ _ _ _ _ _ _ _ h
          subst hset
          obtain ⟨hlt, hcomp⟩ := findMergeIndex_some_compat _ _ _ _ _ hfmi
          have hkindeq := is_compatible_with_kind_eq hcomp
          have hnc := deriveKeyAndRect_kind_ne_composite _ _ _ _ hder
          refine set_preserves_getElem? _ _ _ i hi ?_
          intro hcontra
          subst hcontra
          exact hnc (by rw [← hkindeq]; exact hkd)
        · split at h
          · exact Except.noConfusion h
          · obtain ⟨updated, hset⟩ := encodeAlphaItem_shape _ _ _ _ _ _ _ _ h
            subst hset
            exact append_set_preserves_getElem? _ _ _ i hi
    | HardwareComposite sc src_id op z =>
      simp only [processAlphaItem] at h
      split at h
      · exact Except.noConfusion h
      · split at h
        · exact Except.noConfusion h
        · rename_i x1 batch_key rect hder x2 bidx hfmi
          obtain ⟨updated, hset⟩ := encodeAlphaItem_shape _ _ _ _ _ _ _ _ h
          subst hset
          obtain ⟨hlt, hcomp⟩ := findMergeIndex_some_compat _ _ _ _ _ hfmi
          have hkindeq := is_compatible_with_kind_eq hcomp
          have hnc := deriveKeyAndRect_kind_ne_composite _ _ _ _ hder
          refine set_preserves_getElem? _ _ _ i hi ?_
          intro hcontra
          subst hcontra
          exact hnc (by rw [← hkindeq]; exact hkd)
        · split at h
          · exact Except.noConfusion h
          · obtain ⟨updated, hset⟩ := encodeAlphaItem_shape _ _ _ _ _ _ _ _ h
            subst hset
            exact append_set_preserves_getElem? _ _ _ i hi
    | Primitive group prim z =>
      simp only [processAlphaItem] at h
      split at h
      · exact Except.noConfusion h
      · split at h
        · exact Except.noConfusion h
        · rename_i x1 batch_key rect hder x2 bidx hfmi
          obtain ⟨updated, hset⟩ := encodeAlphaItem_shape _ _ _ _ _ _ _ _ h
          subst hset
          obtain ⟨hlt, hcomp⟩ := findMergeIndex_some_compat _ _ _ _ _ hfmi
          have hkindeq := is_compatible_with_kind_eq hcomp
          have hnc := deriveKeyAndRect_kind_ne_composite _ _ _ _ hder
          refine set_preserves_getElem? _ _ _ i hi ?_
          intro hcontra
          subst hcontra
          exact hnc (by rw [← hkindeq]; exact hkd)
        · split at h
          · exact Except.noConfusion h
          · obtain ⟨updated, hset⟩ := encodeAlphaItem_shape _ _ _ _ _ _ _ _ h
            subst hset
            exact append_set_preserves_getElem? _ _ _ i hi

/-- The empty context of the claim C6 witness. -/
def c6Ctx : RenderTargetContext :=
  { stacking_context_store := [], clip_scroll_group_store := [],
    prim_store := { cpu_metadata := [], cpu_text_runs := [], cpu_images := [],
                    cpu_yuv_images := [], cpu_bounding_rects := [] },
    resource_cache := { cached_texture := fun _ => SourceTexture.Invalid } }

/-- The task collection of the claim C6 witness: one dynamic backdrop task
in pass 0 and one static slot. -/
def c6Collection : RenderTaskCollection :=
  { render_task_data := [⟨[0]⟩, ⟨[1]⟩],
    dynamic_tasks := [((⟨9⟩, 0), ⟨1, ⟨⟨0, 0⟩, ⟨8, 8⟩⟩⟩)] }

/-- Claim C6 witness: a concrete composite item appends exactly its
standalone batch, evaluated through the theorem. -/
theorem claim_C6_witness :
    c6Collection.get_task_index (RenderTaskId.Dynamic ⟨9⟩) 0 = Except.ok 1 ∧
    c6Collection.get_static_task_index (RenderTaskId.Static 0) = Except.ok 0 ∧
    processAlphaItem c6Ctx c6Collection 0 4 []
        (AlphaRenderItem.Composite 7 (RenderTaskId.Dynamic ⟨9⟩) (RenderTaskId.Static 0) 3 11) =
      Except.ok [PrimitiveBatch.new_composite 7 4 1 0 3 11] := by
  refine ⟨rfl, rfl, ?_⟩
  exact (claim_C6_composite_standalone c6Ctx c6Collection 0 4 []).1
    7 (RenderTaskId.Dynamic ⟨9⟩) (RenderTaskId.Static 0) 3 11 1 0 rfl rfl
